import Mathlib

/-!
Verification development for the nmstate connection-profile compiler
(`rust/src/lib/nm/settings/connection.rs`) and the revert planner
(`rust/src/lib/revert/ifaces/base.rs`).

The two Rust source files are shallowly embedded below.  Collaborators that
the source files call but whose code is not part of the two files (the
interface data model, the leaf setting generators, the companion profile
builders, the `uuid` crate, the live-state lookup) are modelled from the
specification; every such definition carries a doc comment starting with
`Modelled from the spec:`.  Rust's `&mut` parameters become explicit
state-passing, `Result` becomes `Except`, and the process random number
generator feeding `uuid::Uuid::new_v4` is modelled by an explicit `rand`
argument threaded to every place the source would draw a random identifier.
-/

namespace Nmstate

/-- Error kinds of the shared `NmstateError` taxonomy used by the two
source files (`ErrorKind::NotImplementedError` for unrecognized interface
families, `ErrorKind::InvalidArgument` for malformed leaf configuration). -/
inductive ErrorKind where
  | NotImplementedError
  | InvalidArgument
deriving DecidableEq, Repr

/-- Shared error type: a kind together with a human-readable message. -/
structure NmstateError where
  kind : ErrorKind
  msg : String
deriving DecidableEq, Repr

/-- Interface state tag.  `Ignore` marks an interface the daemon must leave
unmanaged; `Interface::is_ignore` tests for it. -/
inductive InterfaceState where
  | Up
  | Down
  | Absent
  | Ignore
deriving DecidableEq, Repr

/-- The closed interface-family tag (`InterfaceType`).  The constructors
with a dedicated arm in `iface_type_to_nm` are listed first; `Other`
carries a free-form on-wire string; `Loopback`, `Tun` and `Unknown` stand
for the families that fall into the wildcard (unsupported) arm of
`iface_type_to_nm`. -/
inductive InterfaceType where
  | LinuxBridge
  | Bond
  | Ethernet
  | OvsBridge
  | OvsInterface
  | Vlan
  | Vxlan
  | Dummy
  | MacVlan
  | MacVtap
  | Vrf
  | Veth
  | InfiniBand
  | Other (s : String)
  | Loopback
  | Tun
  | Unknown
deriving DecidableEq, Repr

/-- Modelled from the spec: the user-facing display string of an interface
family (the Rust `Display` impl used by `format!("{iface_type}://…")` when
deriving the stable identifier). -/
def InterfaceType.display : InterfaceType → String
  | .LinuxBridge => "linux-bridge"
  | .Bond => "bond"
  | .Ethernet => "ethernet"
  | .OvsBridge => "ovs-bridge"
  | .OvsInterface => "ovs-interface"
  | .Vlan => "vlan"
  | .Vxlan => "vxlan"
  | .Dummy => "dummy"
  | .MacVlan => "mac-vlan"
  | .MacVtap => "mac-vtap"
  | .Vrf => "vrf"
  | .Veth => "veth"
  | .InfiniBand => "infiniband"
  | .Other s => s
  | .Loopback => "loopback"
  | .Tun => "tun"
  | .Unknown => "unknown"

/-- Modelled from the spec: the debug rendering of an interface family used
in the not-implemented error message of `iface_type_to_nm`. -/
def InterfaceType.debugString (t : InterfaceType) : String :=
  t.display

/- ----------------------------------------------------------------------
SHA-1 and RFC 4122 version-5 UUID derivation.

Modelled from the spec: the `uuid` crate's `Uuid::new_v5` is not part of
the repository; the spec pins "a well-defined namespaced hash function over
(family, name)" — i.e. the RFC 4122 v5 (SHA-1) scheme — as a compatibility
contract.  The implementation below is a byte-precise model of that
contract, operating on natural numbers reduced mod 2^32 / 2^8.
---------------------------------------------------------------------- -/

/-- Reduce a natural number to a 32-bit word. -/
def w32 (n : Nat) : Nat := n % 4294967296

/-- Rotate a 32-bit word left by `k` bits. -/
def rotl32 (n k : Nat) : Nat := w32 (n <<< k) ||| (n >>> (32 - k))

/-- Big-endian byte rendering of a natural number in `k` bytes. -/
def bytesBE (k n : Nat) : List Nat :=
  (List.range k).map (fun i => (n >>> (8 * (k - 1 - i))) % 256)

/-- SHA-1 message padding: append `0x80`, zero bytes, and the 64-bit
big-endian bit length, reaching a multiple of 64 bytes. -/
def sha1Pad (msg : List Nat) : List Nat :=
  let len := msg.length
  let zeros := (119 - (len % 64)) % 64
  msg ++ [128] ++ List.replicate zeros 0 ++ bytesBE 8 (8 * len)

/-- Split a byte list into 64-byte blocks (fuel-indexed structural
recursion; the fuel is the list length). -/
def toBlocksF : Nat → List Nat → List (List Nat)
  | 0, _ => []
  | _, [] => []
  | fuel + 1, l => l.take 64 :: toBlocksF fuel (l.drop 64)

/-- Split a byte list into 64-byte blocks. -/
def toBlocks (l : List Nat) : List (List Nat) := toBlocksF l.length l

/-- Assemble big-endian 32-bit words from a byte list. -/
def bytesToWords : List Nat → List Nat
  | b0 :: b1 :: b2 :: b3 :: rest =>
      (b0 <<< 24 ||| b1 <<< 16 ||| b2 <<< 8 ||| b3) :: bytesToWords rest
  | _ => []

/-- Extend the 16 words of a SHA-1 block to the 80-word message schedule. -/
def sha1Extend (ws : List Nat) : List Nat :=
  (List.range 64).foldl
    (fun acc _ =>
      let n := acc.length
      acc ++ [rotl32 (((acc.getD (n - 3) 0 ^^^ acc.getD (n - 8) 0) ^^^
        acc.getD (n - 14) 0) ^^^ acc.getD (n - 16) 0) 1])
    ws

/-- One SHA-1 round: update the five-word state with word `w` of round `i`. -/
def sha1Round (st : Nat × Nat × Nat × Nat × Nat) (iw : Nat × Nat) :
    Nat × Nat × Nat × Nat × Nat :=
  let (a, b, c, d, e) := st
  let (i, w) := iw
  let f :=
    if i < 20 then (b &&& c) ||| ((4294967295 - b) &&& d)
    else if i < 40 then (b ^^^ c) ^^^ d
    else if i < 60 then ((b &&& c) ||| (b &&& d)) ||| (c &&& d)
    else (b ^^^ c) ^^^ d
  let k :=
    if i < 20 then 1518500249
    else if i < 40 then 1859775393
    else if i < 60 then 2400959708
    else 3395469782
  let temp := w32 (rotl32 a 5 + f + e + k + w)
  (temp, a, rotl32 b 30, c, d)

/-- Process one 64-byte block, updating the SHA-1 chaining state. -/
def sha1Block (h : Nat × Nat × Nat × Nat × Nat) (block : List Nat) :
    Nat × Nat × Nat × Nat × Nat :=
  let ws := sha1Extend (bytesToWords block)
  let (a, b, c, d, e) := ws.enum.foldl sha1Round h
  let (h0, h1, h2, h3, h4) := h
  (w32 (h0 + a), w32 (h1 + b), w32 (h2 + c), w32 (h3 + d), w32 (h4 + e))

/-- SHA-1 digest of a byte list, as a list of 20 bytes. -/
def sha1 (msg : List Nat) : List Nat :=
  let init : Nat × Nat × Nat × Nat × Nat :=
    (1732584193, 4023233417, 2562383102, 271733878, 3285377520)
  let (h0, h1, h2, h3, h4) := (toBlocks (sha1Pad msg)).foldl sha1Block init
  bytesBE 4 h0 ++ bytesBE 4 h1 ++ bytesBE 4 h2 ++ bytesBE 4 h3 ++ bytesBE 4 h4

/-- UTF-8 encoding of one character as bytes. -/
def charUtf8 (c : Char) : List Nat :=
  let n := c.toNat
  if n < 128 then [n]
  else if n < 2048 then [192 ||| (n >>> 6), 128 ||| (n &&& 63)]
  else if n < 65536 then
    [224 ||| (n >>> 12), 128 ||| ((n >>> 6) &&& 63), 128 ||| (n &&& 63)]
  else
    [240 ||| (n >>> 18), 128 ||| ((n >>> 12) &&& 63),
      128 ||| ((n >>> 6) &&& 63), 128 ||| (n &&& 63)]

/-- UTF-8 encoding of a string as bytes. -/
def strUtf8 (s : String) : List Nat :=
  s.data.foldr (fun c acc => charUtf8 c ++ acc) []

/-- Byte form of `uuid::Uuid::NAMESPACE_URL`
(6ba7b811-9dad-11d1-80b4-00c04fd430c8). -/
def NAMESPACE_URL : List Nat :=
  [107, 167, 184, 17, 157, 173, 17, 209, 128, 180, 0, 192, 79, 212, 48, 200]

/-- Lower-case hexadecimal digit. -/
def hexDigit (n : Nat) : Char :=
  if n < 10 then Char.ofNat (48 + n) else Char.ofNat (87 + n % 16)

/-- Two-digit lower-case hexadecimal rendering of a byte. -/
def byteHex (b : Nat) : List Char :=
  [hexDigit (b / 16 % 16), hexDigit (b % 16)]

/-- Hyphenated rendering of 16 UUID bytes (8-4-4-4-12 hex groups). -/
def uuidHyphenated (bs : List Nat) : String :=
  let hx := fun (l : List Nat) => String.mk (l.flatMap byteHex)
  hx (bs.take 4) ++ "-" ++ hx ((bs.drop 4).take 2) ++ "-" ++
    hx ((bs.drop 6).take 2) ++ "-" ++ hx ((bs.drop 8).take 2) ++ "-" ++
    hx (bs.drop 10)

/-- Modelled from the spec: `uuid::Uuid::new_v5(namespace, bytes)` followed
by `.hyphenated().to_string()` — the RFC 4122 version-5 UUID of the given
name bytes under the given namespace, with the version and variant bits
forced. -/
def uuid_v5_hyphenated (ns : List Nat) (name : List Nat) : String :=
  let d := (sha1 (ns ++ name)).take 16
  let d := d.set 6 ((d.getD 6 0 &&& 15) ||| 80)
  let d := d.set 8 ((d.getD 8 0 &&& 63) ||| 128)
  uuidHyphenated d

/- ----------------------------------------------------------------------
Interface data model.  The `Interface` tagged union, its base record and
the per-family configuration slices live outside the two source files;
they are modelled from the spec (§3) with exactly the attributes the two
source files read.
---------------------------------------------------------------------- -/

/-- Modelled from the spec: one address family's IP configuration.
`enabled`/`dhcp`/`autoconf` drive `is_auto`; `addresses` carries the
static addresses the sanitize step normalizes. -/
structure InterfaceIp where
  enabled : Bool := false
  dhcp : Option Bool := none
  autoconf : Option Bool := none
  addresses : List String := []
deriving DecidableEq, Repr

/-- Modelled from the spec: whether an address family uses automatic
addressing (enabled with DHCP or autoconf on). -/
def InterfaceIp.is_auto (c : InterfaceIp) : Bool :=
  c.enabled && (c.dhcp == some true || c.autoconf == some true)

/-- Modelled from the spec: the per-family normalization/sanitation step.
Rust's `sanitize(&mut self, strict) -> Result<(), NmstateError>` both
mutates in place and may report an error; the model returns the mutated
configuration together with the optional error (which
`generate_revert_extra` discards).  The concrete normalization drops empty
address strings and reports them as invalid. -/
def InterfaceIp.sanitize (c : InterfaceIp) (strict : Bool) :
    InterfaceIp × Option NmstateError :=
  ({ c with addresses := c.addresses.filter (fun a => a ≠ "") },
    if strict && c.addresses.contains "" then
      some ⟨.InvalidArgument, "invalid empty address"⟩
    else none)

/-- Modelled from the spec: link-layer discovery protocol configuration. -/
structure LldpConfig where
  enabled : Bool := false
deriving DecidableEq, Repr

/-- Modelled from the spec: multipath-TCP configuration; the flag
combination signal+fullmesh is the malformed case its converter rejects. -/
structure MptcpConfig where
  address_flags : List String := []
deriving DecidableEq, Repr

/-- Modelled from the spec: diagnostics-tooling (ethtool) configuration. -/
structure EthtoolConfig where
  pause : Option Bool := none
deriving DecidableEq, Repr

/-- Modelled from the spec: 802.1x authentication configuration. -/
structure Ieee8021XConfig where
  identity : String := ""
deriving DecidableEq, Repr

/-- Modelled from the spec: the common base record of every interface
family (§3).  `can_have_ip` and `is_up_exist_config` abstract the
identically-named methods whose code is outside the two source files:
the former says whether the family can carry IP addressing, the latter
marks a desired interface that carries nothing but `state: up`, i.e. a
"persist the current state" request. -/
structure BaseInterface where
  name : String := ""
  iface_type : InterfaceType := .Unknown
  state : InterfaceState := .Up
  controller : Option String := none
  controller_type : Option InterfaceType := none
  ipv4 : Option InterfaceIp := none
  ipv6 : Option InterfaceIp := none
  routes : Option (List String) := none
  rules : Option (List String) := none
  lldp : Option LldpConfig := none
  mptcp : Option MptcpConfig := none
  ovsdb : Option (List (String × String)) := none
  ieee8021x : Option Ieee8021XConfig := none
  description : Option String := none
  ethtool : Option EthtoolConfig := none
  mtu : Option Nat := none
  can_have_ip : Bool := true
  is_up_exist_config : Bool := false
deriving DecidableEq, Repr

/-- Modelled from the spec: virtual-pair (veth) configuration with the
peer's interface name. -/
structure VethConfig where
  peer : String := ""
deriving DecidableEq, Repr

/-- Modelled from the spec: SR-IOV configuration of a physical link. -/
structure SrIovConfig where
  total_vfs : Nat := 0
deriving DecidableEq, Repr

/-- Physical-link interface; may carry a virtual-pair configuration and
SR-IOV settings. -/
structure EthernetInterface where
  base : BaseInterface := {}
  veth : Option VethConfig := none
  sr_iov : Option SrIovConfig := none
deriving DecidableEq, Repr

/-- Switch-bridge port configuration (`OvsBridgePortConfig`): the port's
own interface name plus defaulted port settings. -/
structure OvsBridgePortConfig where
  name : String := ""
  vlan_tag : Option Nat := none
deriving DecidableEq, Repr

/-- Software-switch bridge interface with its declared port
configurations (`port_confs()`). -/
structure OvsBridgeInterface where
  base : BaseInterface := {}
  port_confs : List OvsBridgePortConfig := []
deriving DecidableEq, Repr

/-- Modelled from the spec: one port entry of a Linux-bridge
configuration. -/
structure LinuxBridgePortConfig where
  name : String := ""
  stp_priority : Option Nat := none
deriving DecidableEq, Repr

/-- Linux-bridge interface with its port configurations. -/
structure LinuxBridgeInterface where
  base : BaseInterface := {}
  bridge_ports : List LinuxBridgePortConfig := []
deriving DecidableEq, Repr

/-- Bond interface. -/
structure BondInterface where
  base : BaseInterface := {}
  mode : Option String := none
deriving DecidableEq, Repr

/-- Software-switch internal interface. -/
structure OvsInterfaceIface where
  base : BaseInterface := {}
  patch_peer : Option String := none
deriving DecidableEq, Repr

/-- Overlay VLAN configuration. -/
structure VlanConfig where
  base_iface : String := ""
  vlan_id : Nat := 0
deriving DecidableEq, Repr

/-- Overlay VLAN interface. -/
structure VlanInterface where
  base : BaseInterface := {}
  vlan : Option VlanConfig := none
deriving DecidableEq, Repr

/-- Overlay VXLAN configuration. -/
structure VxlanConfig where
  base_iface : String := ""
  vxlan_id : Nat := 0
deriving DecidableEq, Repr

/-- Overlay VXLAN interface. -/
structure VxlanInterface where
  base : BaseInterface := {}
  vxlan : Option VxlanConfig := none
deriving DecidableEq, Repr

/-- MAC-overlay configuration (macvlan/macvtap). -/
structure MacVlanConfig where
  base_iface : String := ""
  mode : String := ""
deriving DecidableEq, Repr

/-- MAC-VLAN interface. -/
structure MacVlanInterface where
  base : BaseInterface := {}
  mac_vlan : Option MacVlanConfig := none
deriving DecidableEq, Repr

/-- MAC-VTAP interface. -/
structure MacVtapInterface where
  base : BaseInterface := {}
  mac_vtap : Option MacVlanConfig := none
deriving DecidableEq, Repr

/-- Virtual-routing-and-forwarding configuration. -/
structure VrfConfig where
  table_id : Nat := 0
deriving DecidableEq, Repr

/-- VRF interface. -/
structure VrfInterface where
  base : BaseInterface := {}
  vrf : Option VrfConfig := none
deriving DecidableEq, Repr

/-- InfiniBand interface. -/
structure InfiniBandInterface where
  base : BaseInterface := {}
  pkey : Option Nat := none
deriving DecidableEq, Repr

/-- The `Interface` tagged union over interface families; the families
without a dedicated dispatch arm in the Compiler are represented by the
`Dummy` and `Unknown` base-only constructors. -/
inductive Interface where
  | Ethernet (i : EthernetInterface)
  | OvsBridge (i : OvsBridgeInterface)
  | LinuxBridge (i : LinuxBridgeInterface)
  | Bond (i : BondInterface)
  | OvsInterface (i : OvsInterfaceIface)
  | Vlan (i : VlanInterface)
  | Vxlan (i : VxlanInterface)
  | MacVlan (i : MacVlanInterface)
  | MacVtap (i : MacVtapInterface)
  | Vrf (i : VrfInterface)
  | InfiniBand (i : InfiniBandInterface)
  | Dummy (base : BaseInterface)
  | Unknown (base : BaseInterface)
deriving DecidableEq, Repr

/-- The common base record of any interface (`Interface::base_iface`). -/
def Interface.base_iface : Interface → BaseInterface
  | .Ethernet i => i.base
  | .OvsBridge i => i.base
  | .LinuxBridge i => i.base
  | .Bond i => i.base
  | .OvsInterface i => i.base
  | .Vlan i => i.base
  | .Vxlan i => i.base
  | .MacVlan i => i.base
  | .MacVtap i => i.base
  | .Vrf i => i.base
  | .InfiniBand i => i.base
  | .Dummy b => b
  | .Unknown b => b

/-- Interface name (`Interface::name`). -/
def Interface.name (i : Interface) : String := i.base_iface.name

/-- Interface family tag (`Interface::iface_type`). -/
def Interface.iface_type (i : Interface) : InterfaceType :=
  i.base_iface.iface_type

/-- Modelled from the spec: whether the family is a software/virtual-only
(user-space) construct rather than a kernel interface. -/
def Interface.is_userspace (i : Interface) : Bool :=
  i.iface_type == .OvsBridge || i.iface_type == .Other "ovs-port"

/-- Modelled from the spec: whether the desired interface is a bare
"persist the current state" request (`state: up` with no further
configuration). -/
def Interface.is_up_exist_config (i : Interface) : Bool :=
  i.base_iface.is_up_exist_config

/-- Modelled from the spec: whether the interface is ignored/unmanaged. -/
def Interface.is_ignore (i : Interface) : Bool :=
  i.base_iface.state == .Ignore

/-- Modelled from the spec: whether the interface aggregates ports
(bridge, bond, software-switch bridge, VRF). -/
def Interface.is_controller (i : Interface) : Bool :=
  i.iface_type == .LinuxBridge || i.iface_type == .Bond ||
    i.iface_type == .OvsBridge || i.iface_type == .Vrf

/-- The current live network state: the set of interfaces the kernel and
the daemon reported at query time. -/
structure NetworkState where
  interfaces : List Interface := []
deriving DecidableEq, Repr

/-- Modelled from the spec: the live-state lookup collaborator
`NetworkState::get_kernel_iface_with_route(name)`: find the kernel-level
(non-user-space) interface with the given name, with its routes. -/
def NetworkState.get_kernel_iface_with_route (s : NetworkState)
    (name : String) : Option Interface :=
  s.interfaces.find? (fun i => i.base_iface.name == name && !i.is_userspace)

/- ----------------------------------------------------------------------
Revert planner (`rust/src/lib/revert/ifaces/base.rs`).
---------------------------------------------------------------------- -/

/-- The revert planner `BaseInterface::generate_revert_extra(&mut self,
desired, current)`: if the desired configuration cannot carry IP but the
base being reverted can, restore both address families from the current
live base; if desired flips a family from static to automatic addressing
relative to current, restore that family from current; finally run each
family's non-strict sanitize step, discarding its error.  The `&mut self`
receiver becomes an explicit result; `desired` and `current` are read-only
borrows in the source, so the model takes them as plain values. -/
def BaseInterface.generate_revert_extra (self desired current : BaseInterface) :
    BaseInterface :=
  let s1 :=
    if !desired.can_have_ip && self.can_have_ip then
      { self with ipv4 := current.ipv4, ipv6 := current.ipv6 }
    else self
  let s2 :=
    if desired.ipv4.map (fun i => i.is_auto) == some true &&
        current.ipv4.map (fun i => !i.is_auto) == some true then
      { s1 with ipv4 := current.ipv4 }
    else s1
  let s3 :=
    if desired.ipv6.map (fun i => i.is_auto) == some true &&
        current.ipv6.map (fun i => !i.is_auto) == some true then
      { s2 with ipv6 := current.ipv6 }
    else s2
  { s3 with
    ipv4 := s3.ipv4.map (fun i => (i.sanitize false).1),
    ipv6 := s3.ipv6.map (fun i => (i.sanitize false).1) }

/- ----------------------------------------------------------------------
Connection profile model (`NmConnection` and its setting groups, from the
`nm_dbus` collaborator; modelled from the spec with the fields the two
source files read and write).
---------------------------------------------------------------------- -/

/-- Runtime flags of a stored profile; `External` marks an
externally-managed connection. -/
inductive NmSettingsConnectionFlag where
  | External
  | Unsaved
  | NmGenerated
  | Volatile
deriving DecidableEq, Repr

/-- The identity sub-record of a profile (`NmSettingConnection`): display
name, unique identifier, on-wire family, interface-name binding,
autoconnect flags and controller linkage. -/
structure NmSettingConnection where
  id : Option String := none
  uuid : Option String := none
  iface_type : Option String := none
  iface_name : Option String := none
  autoconnect : Option Bool := none
  autoconnect_ports : Option Bool := none
  controller : Option String := none
  controller_type : Option String := none
  lldp : Option Bool := none
  mptcp_flags : Option (List String) := none
deriving DecidableEq, Repr

/-- Modelled from the spec: Linux-bridge setting group. -/
structure NmSettingBridge where
  stp : Option Bool := none
deriving DecidableEq, Repr

/-- Modelled from the spec: bridge-port setting group. -/
structure NmSettingBridgePort where
  stp_priority : Option Nat := none
deriving DecidableEq, Repr

/-- Modelled from the spec: software-switch bridge setting group. -/
structure NmSettingOvsBridge where
  stp : Option Bool := none
deriving DecidableEq, Repr

/-- Modelled from the spec: software-switch port setting group. -/
structure NmSettingOvsPort where
  vlan_tag : Option Nat := none
deriving DecidableEq, Repr

/-- Modelled from the spec: software-switch interface setting group. -/
structure NmSettingOvsIface where
  patch_peer : Option String := none
deriving DecidableEq, Repr

/-- Modelled from the spec: switch-extended-attributes setting group. -/
structure NmSettingOvsExtIds where
  data : List (String × String) := []
deriving DecidableEq, Repr

/-- Modelled from the spec: wired (link-layer) setting group. -/
structure NmSettingWired where
  mtu : Option Nat := none
deriving DecidableEq, Repr

/-- Overlay VLAN setting group. -/
structure NmSettingVlan where
  parent : String := ""
  vlan_id : Nat := 0
deriving DecidableEq, Repr

/-- Conversion `NmSettingVlan::from(conf)`. -/
def NmSettingVlan.ofConf (c : VlanConfig) : NmSettingVlan :=
  { parent := c.base_iface, vlan_id := c.vlan_id }

/-- Overlay VXLAN setting group. -/
structure NmSettingVxlan where
  parent : String := ""
  vxlan_id : Nat := 0
deriving DecidableEq, Repr

/-- Conversion `NmSettingVxlan::from(conf)`. -/
def NmSettingVxlan.ofConf (c : VxlanConfig) : NmSettingVxlan :=
  { parent := c.base_iface, vxlan_id := c.vxlan_id }

/-- Virtual-pair setting group. -/
structure NmSettingVeth where
  peer : String := ""
deriving DecidableEq, Repr

/-- Conversion `NmSettingVeth::from(conf)`. -/
def NmSettingVeth.ofConf (c : VethConfig) : NmSettingVeth :=
  { peer := c.peer }

/-- MAC-overlay setting group. -/
structure NmSettingMacVlan where
  parent : String := ""
  mode : String := ""
deriving DecidableEq, Repr

/-- Conversion `NmSettingMacVlan::from(conf)`. -/
def NmSettingMacVlan.ofConf (c : MacVlanConfig) : NmSettingMacVlan :=
  { parent := c.base_iface, mode := c.mode }

/-- Virtual-routing-and-forwarding setting group. -/
structure NmSettingVrf where
  table_id : Nat := 0
deriving DecidableEq, Repr

/-- Conversion `NmSettingVrf::from(conf)`. -/
def NmSettingVrf.ofConf (c : VrfConfig) : NmSettingVrf :=
  { table_id := c.table_id }

/-- Modelled from the spec: bond setting group. -/
structure NmSettingBond where
  mode : Option String := none
deriving DecidableEq, Repr

/-- Modelled from the spec: InfiniBand setting group. -/
structure NmSettingInfiniBand where
  pkey : Option Nat := none
deriving DecidableEq, Repr

/-- Modelled from the spec: SR-IOV setting group. -/
structure NmSettingSriov where
  total_vfs : Nat := 0
deriving DecidableEq, Repr

/-- Modelled from the spec: 802.1x setting group. -/
structure NmSetting8021X where
  identity : String := ""
deriving DecidableEq, Repr

/-- Modelled from the spec: user-data setting group. -/
structure NmSettingUser where
  data : String := ""
deriving DecidableEq, Repr

/-- Modelled from the spec: diagnostics-tooling (ethtool) setting group. -/
structure NmSettingEthtool where
  pause : Option Bool := none
deriving DecidableEq, Repr

/-- Modelled from the spec: one address family's IP setting group of a
profile. -/
structure NmSettingIp where
  conf : Option InterfaceIp := none
  routes : Option (List String) := none
  rules : Option (List String) := none
deriving DecidableEq, Repr

/-- The persistent connection profile (`NmConnection`): the identity
sub-record, the runtime flags, and the family-specific setting groups. -/
structure NmConnection where
  connection : Option NmSettingConnection := none
  flags : List NmSettingsConnectionFlag := []
  bridge : Option NmSettingBridge := none
  bridge_port : Option NmSettingBridgePort := none
  ovs_bridge : Option NmSettingOvsBridge := none
  ovs_port : Option NmSettingOvsPort := none
  ovs_iface : Option NmSettingOvsIface := none
  ovs_ext_ids : Option NmSettingOvsExtIds := none
  wired : Option NmSettingWired := none
  vlan : Option NmSettingVlan := none
  vxlan : Option NmSettingVxlan := none
  veth : Option NmSettingVeth := none
  mac_vlan : Option NmSettingMacVlan := none
  vrf : Option NmSettingVrf := none
  bond : Option NmSettingBond := none
  infiniband : Option NmSettingInfiniBand := none
  sriov : Option NmSettingSriov := none
  ieee_8021x : Option NmSetting8021X := none
  user : Option NmSettingUser := none
  ethtool : Option NmSettingEthtool := none
  ipv4 : Option NmSettingIp := none
  ipv6 : Option NmSettingIp := none
deriving DecidableEq, Repr

/-- Accessor `NmConnection::iface_name`. -/
def NmConnection.iface_name (c : NmConnection) : Option String :=
  c.connection.bind (fun s => s.iface_name)

/-- Accessor `NmConnection::iface_type`. -/
def NmConnection.iface_type (c : NmConnection) : Option String :=
  c.connection.bind (fun s => s.iface_type)

/-- Accessor `NmConnection::uuid`. -/
def NmConnection.uuid (c : NmConnection) : Option String :=
  c.connection.bind (fun s => s.uuid)

/-- Accessor `NmConnection::controller_type`. -/
def NmConnection.controller_type (c : NmConnection) : Option String :=
  c.connection.bind (fun s => s.controller_type)

/- ----------------------------------------------------------------------
Shallow embedding of `rust/src/lib/nm/settings/connection.rs`.
---------------------------------------------------------------------- -/

def NM_SETTING_BRIDGE_SETTING_NAME : String := "bridge"

def NM_SETTING_WIRED_SETTING_NAME : String := "802-3-ethernet"

def NM_SETTING_OVS_BRIDGE_SETTING_NAME : String := "ovs-bridge"

def NM_SETTING_OVS_PORT_SETTING_NAME : String := "ovs-port"

def NM_SETTING_OVS_IFACE_SETTING_NAME : String := "ovs-interface"

def NM_SETTING_VETH_SETTING_NAME : String := "veth"

def NM_SETTING_BOND_SETTING_NAME : String := "bond"

def NM_SETTING_DUMMY_SETTING_NAME : String := "dummy"

def NM_SETTING_MACVLAN_SETTING_NAME : String := "macvlan"

def NM_SETTING_VRF_SETTING_NAME : String := "vrf"

def NM_SETTING_VLAN_SETTING_NAME : String := "vlan"

def NM_SETTING_VXLAN_SETTING_NAME : String := "vxlan"

def NM_SETTING_INFINIBAND_SETTING_NAME : String := "infiniband"

/-- The Type Mapper `iface_type_to_nm`: pure lookup from interface-family
tag to the daemon's on-wire type string; families outside the recognized
set yield a not-implemented failure. -/
def iface_type_to_nm : InterfaceType → Except NmstateError String
  | .LinuxBridge => .ok NM_SETTING_BRIDGE_SETTING_NAME
  | .Bond => .ok NM_SETTING_BOND_SETTING_NAME
  | .Ethernet => .ok NM_SETTING_WIRED_SETTING_NAME
  | .OvsBridge => .ok NM_SETTING_OVS_BRIDGE_SETTING_NAME
  | .OvsInterface => .ok NM_SETTING_OVS_IFACE_SETTING_NAME
  | .Vlan => .ok NM_SETTING_VLAN_SETTING_NAME
  | .Vxlan => .ok NM_SETTING_VXLAN_SETTING_NAME
  | .Dummy => .ok NM_SETTING_DUMMY_SETTING_NAME
  | .MacVlan => .ok NM_SETTING_MACVLAN_SETTING_NAME
  | .MacVtap => .ok NM_SETTING_MACVLAN_SETTING_NAME
  | .Vrf => .ok NM_SETTING_VRF_SETTING_NAME
  | .Veth => .ok NM_SETTING_VETH_SETTING_NAME
  | .InfiniBand => .ok NM_SETTING_INFINIBAND_SETTING_NAME
  | .Other s => .ok s
  | t =>
    .error ⟨.NotImplementedError,
      "Does not support iface type: " ++ t.debugString ++ " yet"⟩

/-- Whether the family tag has a dedicated (supported) arm in
`iface_type_to_nm`. -/
def InterfaceType.is_recognized : InterfaceType → Bool
  | .LinuxBridge | .Bond | .Ethernet | .OvsBridge | .OvsInterface
  | .Vlan | .Vxlan | .Dummy | .MacVlan | .MacVtap | .Vrf | .Veth
  | .InfiniBand | .Other _ => true
  | _ => false

/-- The stable-identity derivation `uuid_from_name_and_type`: the
version-5 UUID, under the URL namespace, of `"{iface_type}://{iface_name}"`. -/
def uuid_from_name_and_type (iface_name : String)
    (iface_type : InterfaceType) : String :=
  uuid_v5_hyphenated NAMESPACE_URL
    (strUtf8 (iface_type.display ++ "://" ++ iface_name))

/-- Loop body of `get_exist_profile`: walk the existing profiles carrying
the list of matched-but-inactive candidates (`found_nm_conns`); an active
candidate returns immediately, otherwise the final `pop()` yields the last
candidate. -/
def get_exist_profile_go (iface_name : String) (iface_type : InterfaceType)
    (nm_ac_uuids : List String) :
    List NmConnection → List NmConnection → Option NmConnection
  | [], found => found.getLast?
  | exist_nm_conn :: rest, found =>
    match iface_type_to_nm iface_type with
    | .error _ => get_exist_profile_go iface_name iface_type nm_ac_uuids rest found
    | .ok nm_iface_type =>
      if exist_nm_conn.iface_name = some iface_name ∧
          (exist_nm_conn.iface_type = some nm_iface_type ∨
            (nm_iface_type = NM_SETTING_WIRED_SETTING_NAME ∧
              exist_nm_conn.iface_type = some NM_SETTING_VETH_SETTING_NAME)) then
        if (match exist_nm_conn.uuid with
            | some uuid => nm_ac_uuids.contains uuid
            | none => false) then
          some exist_nm_conn
        else
          get_exist_profile_go iface_name iface_type nm_ac_uuids rest
            (found ++ [exist_nm_conn])
      else get_exist_profile_go iface_name iface_type nm_ac_uuids rest found

/-- The Profile Matcher `get_exist_profile`: find the existing profile to
reuse, preferring an activated one. -/
def get_exist_profile (exist_nm_conns : List NmConnection)
    (iface_name : String) (iface_type : InterfaceType)
    (nm_ac_uuids : List String) : Option NmConnection :=
  get_exist_profile_go iface_name iface_type nm_ac_uuids exist_nm_conns []

/-- Modelled from the spec: multipath-TCP converter `apply_mptcp_conf`; it
copies the address flags into the identity sub-record and rejects the
malformed signal+fullmesh combination with an invalid-configuration
error. -/
def apply_mptcp_conf (s : NmSettingConnection) (m : MptcpConfig) :
    Except NmstateError NmSettingConnection :=
  if m.address_flags.contains "signal" && m.address_flags.contains "fullmesh" then
    .error ⟨.InvalidArgument, "MPTCP flags signal and fullmesh conflict"⟩
  else .ok { s with mptcp_flags := some m.address_flags }

/-- Reuse-or-create step of the Identity Assigner (lines 295–330 of the
source): clone an identity sub-record the profile already carries,
otherwise build a fresh one with the suffixed display name, the stable or
random unique identifier, and the mapped on-wire family (forced to the
link-peer-pair family for a physical link carrying a virtual-pair
configuration). -/
def conn_set_init (iface : Interface) (nm_conn : NmConnection)
    (stable_uuid : Bool) (rand : String) :
    Except NmstateError NmSettingConnection :=
  match nm_conn.connection with
  | some cur_nm_conn_set => .ok cur_nm_conn_set
  | none => do
    let conn_name :=
      match iface.iface_type with
      | .OvsBridge => iface.name ++ "-br"
      | .Other other_type =>
        if other_type = "ovs-port" then iface.name ++ "-port" else iface.name
      | .OvsInterface => iface.name ++ "-if"
      | _ => iface.name
    let nm_type ← iface_type_to_nm iface.iface_type
    let nm_type :=
      match iface with
      | .Ethernet eth_iface =>
        if eth_iface.veth.isSome then NM_SETTING_VETH_SETTING_NAME else nm_type
      | _ => nm_type
    .ok ({ id := some conn_name,
           uuid := some (if stable_uuid then
             uuid_from_name_and_type iface.name iface.iface_type else rand),
           iface_type := some nm_type } : NmSettingConnection)

/-- Unconditional assignments of the Identity Assigner (lines 332–338 of
the source): interface-name binding, autoconnect, and
autoconnect-of-ports for controllers. -/
def conn_set_basic (iface : Interface) (s : NmSettingConnection) :
    NmSettingConnection :=
  { s with
    iface_name := some iface.name,
    autoconnect := some true,
    autoconnect_ports := if iface.is_controller then some true else none }

/-- Controller-linkage assignment of the Identity Assigner (lines 347–363
of the source): the empty-string sentinel clears both controller fields;
otherwise a mapped controller family stores the name and the family, the
latter overridden to the generic switch-port family when the mapped family
is the switch-bridge family and the interface's own family is not the
generic switch-port family. -/
def conn_set_controller (iface : Interface) (nm_ctrl_type : Option String)
    (s : NmSettingConnection) : NmSettingConnection :=
  match iface.base_iface.controller with
  | none => s
  | some ctrl_name =>
    if ctrl_name = "" then
      { s with controller := none, controller_type := none }
    else
      match nm_ctrl_type with
      | none => s
      | some nct =>
        { s with
          controller := some ctrl_name,
          controller_type := some
            (if nct = "ovs-bridge" ∧ iface.iface_type ≠ .Other "ovs-port" then
              "ovs-port"
            else nct) }

/-- LLDP copy-through of the Identity Assigner (lines 364–366 of the
source). -/
def conn_set_lldp (iface : Interface) (s : NmSettingConnection) :
    NmSettingConnection :=
  match iface.base_iface.lldp with
  | some lldp_conf => { s with lldp := some lldp_conf.enabled }
  | none => s

/-- Multipath-TCP step of the Identity Assigner (lines 367–369 of the
source). -/
def conn_set_mptcp (iface : Interface) (s : NmSettingConnection) :
    Except NmstateError NmSettingConnection :=
  match iface.base_iface.mptcp with
  | some mptcp_conf => apply_mptcp_conf s mptcp_conf
  | none => .ok s

/-- Mapping of the declared controller family (lines 340–346 of the
source): `controller_type.map(iface_type_to_nm).transpose()?`. -/
def map_ctrl_type (iface : Interface) : Except NmstateError (Option String) :=
  match iface.base_iface.controller_type with
  | none => .ok none
  | some ct => do
    let s ← iface_type_to_nm ct
    .ok (some s)

/-- The Identity Assigner `gen_nm_conn_setting`: establish or preserve the
profile's identity sub-record from the desired interface. -/
def gen_nm_conn_setting (iface : Interface) (nm_conn : NmConnection)
    (stable_uuid : Bool) (rand : String) : Except NmstateError NmConnection := do
  let s0 ← conn_set_init iface nm_conn stable_uuid rand
  let s1 := conn_set_basic iface s0
  let nm_ctrl_type ← map_ctrl_type iface
  let s2 := conn_set_controller iface nm_ctrl_type s1
  let s3 := conn_set_lldp iface s2
  let s4 ← conn_set_mptcp iface s3
  .ok { nm_conn with connection := some s4 }

/-- Modelled from the spec: IP settings leaf generator
`gen_nm_ip_setting`; fills the two address-family setting groups from the
base configuration, routes and routing rules. -/
def gen_nm_ip_setting (iface : Interface) (routes rules : Option (List String))
    (c : NmConnection) : Except NmstateError NmConnection :=
  .ok { c with
    ipv4 := some { conf := iface.base_iface.ipv4, routes := routes, rules := rules },
    ipv6 := some { conf := iface.base_iface.ipv6, routes := routes, rules := rules } }

/-- Modelled from the spec: wired leaf generator `gen_nm_wired_setting`;
a no-op when the interface carries no link-layer configuration. -/
def gen_nm_wired_setting (iface : Interface) (c : NmConnection) : NmConnection :=
  match iface.base_iface.mtu with
  | some mtu => { c with wired := some { mtu := some mtu } }
  | none => c

/-- Modelled from the spec: switch-extended-attributes generator
`gen_nm_ovs_ext_ids_setting`; a no-op without relevant configuration. -/
def gen_nm_ovs_ext_ids_setting (iface : Interface) (c : NmConnection) :
    NmConnection :=
  match iface.base_iface.ovsdb with
  | some l => { c with ovs_ext_ids := some { data := l } }
  | none => c

/-- Modelled from the spec: 802.1x generator `gen_nm_802_1x_setting`; a
no-op without relevant configuration. -/
def gen_nm_802_1x_setting (iface : Interface) (c : NmConnection) :
    NmConnection :=
  match iface.base_iface.ieee8021x with
  | some x => { c with ieee_8021x := some { identity := x.identity } }
  | none => c

/-- Modelled from the spec: user-data generator `gen_nm_user_setting`; a
no-op without relevant configuration. -/
def gen_nm_user_setting (iface : Interface) (c : NmConnection) :
    NmConnection :=
  match iface.base_iface.description with
  | some d => { c with user := some { data := d } }
  | none => c

/-- Modelled from the spec: diagnostics-tooling generator
`gen_ethtool_setting`; a no-op without relevant configuration. -/
def gen_ethtool_setting (iface : Interface) (c : NmConnection) :
    Except NmstateError NmConnection :=
  match iface.base_iface.ethtool with
  | some e => .ok { c with ethtool := some { pause := e.pause } }
  | none => .ok c

/-- Modelled from the spec: switch-bridge leaf generator
`gen_nm_ovs_br_setting`. -/
def gen_nm_ovs_br_setting (_b : OvsBridgeInterface) (c : NmConnection) :
    NmConnection :=
  { c with ovs_bridge := some {} }

/-- Modelled from the spec: Linux-bridge leaf generator
`gen_nm_br_setting`. -/
def gen_nm_br_setting (_b : LinuxBridgeInterface) (c : NmConnection) :
    NmConnection :=
  { c with bridge := some {} }

/-- Modelled from the spec (§4.1 step 7): bridge-port leaf generator
`gen_nm_br_port_setting`; recompute the bridge-port setting group from the
supplied controller bridge when that bridge declares this interface as one
of its ports. -/
def gen_nm_br_port_setting (b : LinuxBridgeInterface) (c : NmConnection) :
    NmConnection :=
  match b.bridge_ports.find? (fun p => some p.name == c.iface_name) with
  | some p => { c with bridge_port := some { stp_priority := p.stp_priority } }
  | none => c

/-- Modelled from the spec: bond leaf generator `gen_nm_bond_setting`. -/
def gen_nm_bond_setting (b : BondInterface) (c : NmConnection) :
    NmConnection :=
  { c with bond := some { mode := b.mode } }

/-- Modelled from the spec: switch-interface leaf generator
`gen_nm_ovs_iface_setting`. -/
def gen_nm_ovs_iface_setting (i : OvsInterfaceIface) (c : NmConnection) :
    NmConnection :=
  { c with ovs_iface := some { patch_peer := i.patch_peer } }

/-- Modelled from the spec: SR-IOV leaf generator `gen_nm_sriov_setting`;
a no-op without SR-IOV configuration. -/
def gen_nm_sriov_setting (e : EthernetInterface) (c : NmConnection) :
    NmConnection :=
  match e.sr_iov with
  | some s => { c with sriov := some { total_vfs := s.total_vfs } }
  | none => c

/-- Modelled from the spec: InfiniBand leaf generator
`gen_nm_ib_setting`. -/
def gen_nm_ib_setting (i : InfiniBandInterface) (c : NmConnection) :
    NmConnection :=
  { c with infiniband := some { pkey := i.pkey } }

/-- Modelled from the spec (§4.4): the switch-port Companion builder
`create_ovs_port_nm_conn`: produce a profile bound to the port's own
interface name with the generic switch-port on-wire family, attached to
the given bridge, starting from the matched existing port profile when one
is supplied.  `rand` models the random identifier drawn when
`stable_uuid` is false. -/
def create_ovs_port_nm_conn (br_name : String) (port_conf : OvsBridgePortConfig)
    (exist_nm_ovs_port_conn : Option NmConnection) (stable_uuid : Bool)
    (rand : String) : Except NmstateError NmConnection :=
  let base : NmConnection :=
    match exist_nm_ovs_port_conn with
    | some c => { c with flags := [] }
    | none => {}
  let s0 : NmSettingConnection :=
    match base.connection with
    | some cs => cs
    | none =>
      { id := some (port_conf.name ++ "-port"),
        uuid := some (if stable_uuid then
          uuid_from_name_and_type port_conf.name (.Other "ovs-port") else rand),
        iface_type := some NM_SETTING_OVS_PORT_SETTING_NAME }
  .ok { base with
    connection := some { s0 with
      iface_name := some port_conf.name,
      autoconnect := some true,
      controller := some br_name,
      controller_type := some NM_SETTING_OVS_BRIDGE_SETTING_NAME },
    ovs_port := some { vlan_tag := port_conf.vlan_tag } }

/-- Modelled from the spec (§4.4): the link-peer Companion builder
`create_veth_peer_profile_if_not_found`: when no existing profile matches
the peer, synthesize a minimal virtual-pair profile for it so the kernel
pair can reach the up state; otherwise reuse the existing profile. -/
def create_veth_peer_profile_if_not_found (peer : String)
    (iface_name : String) (exist_nm_conns : List NmConnection)
    (stable_uuid : Bool) (rand : String) : Except NmstateError NmConnection :=
  match exist_nm_conns.find? (fun c =>
      c.iface_name == some peer &&
        (c.iface_type == some NM_SETTING_VETH_SETTING_NAME ||
          c.iface_type == some NM_SETTING_WIRED_SETTING_NAME)) with
  | some c => .ok c
  | none =>
    let s : NmSettingConnection :=
      { id := some peer,
        uuid := some (if stable_uuid then
          uuid_from_name_and_type peer .Veth else rand),
        iface_type := some NM_SETTING_VETH_SETTING_NAME,
        iface_name := some peer,
        autoconnect := some true }
    .ok { connection := some s, veth := some { peer := iface_name } }

/-- The switch-port loop of the Compiler's switch-bridge arm: for each
declared port configuration, match it against the existing profiles (under
its own name and the generic switch-port family) and build its Companion
profile, in declaration order. -/
def ovs_ports_build (br_name : String) (exist_nm_conns : List NmConnection)
    (nm_ac_uuids : List String) (stable_uuid : Bool) (rand : String) :
    List OvsBridgePortConfig → Except NmstateError (List NmConnection)
  | [] => .ok []
  | ovs_port_conf :: rest => do
    let c ← create_ovs_port_nm_conn br_name ovs_port_conf
      (get_exist_profile exist_nm_conns ovs_port_conf.name
        (.Other "ovs-port") nm_ac_uuids)
      stable_uuid rand
    let cs ← ovs_ports_build br_name exist_nm_conns nm_ac_uuids stable_uuid
      rand rest
    .ok (c :: cs)

/-- Family-specific dispatch of the Compiler (the `match iface` block of
`iface_to_nm_connections`): populate the family's setting group and
collect the Companion profiles synthesized along the way (switch ports for
a switch bridge, the link peer for a virtual pair). -/
def iface_specific_dispatch (iface : Interface)
    (exist_nm_conns : List NmConnection) (nm_ac_uuids : List String)
    (veth_peer_exist_in_desire : Bool) (stable_uuid : Bool) (rand : String)
    (nm_conn : NmConnection) :
    Except NmstateError (NmConnection × List NmConnection) :=
  match iface with
  | .OvsBridge ovs_br_iface => do
    let c := gen_nm_ovs_br_setting ovs_br_iface nm_conn
    let ports ← ovs_ports_build ovs_br_iface.base.name exist_nm_conns
      nm_ac_uuids stable_uuid rand ovs_br_iface.port_confs
    .ok (c, ports)
  | .LinuxBridge br_iface => .ok (gen_nm_br_setting br_iface nm_conn, [])
  | .Bond bond_iface => .ok (gen_nm_bond_setting bond_iface nm_conn, [])
  | .OvsInterface i => .ok (gen_nm_ovs_iface_setting i nm_conn, [])
  | .Vlan vlan_iface =>
    .ok ((match vlan_iface.vlan with
      | some conf => { nm_conn with vlan := some (NmSettingVlan.ofConf conf) }
      | none => nm_conn), [])
  | .Vxlan vxlan_iface =>
    .ok ((match vxlan_iface.vxlan with
      | some conf => { nm_conn with vxlan := some (NmSettingVxlan.ofConf conf) }
      | none => nm_conn), [])
  | .Ethernet eth_iface => do
    let c :=
      match eth_iface.veth with
      | some veth_conf =>
        { nm_conn with veth := some (NmSettingVeth.ofConf veth_conf) }
      | none => nm_conn
    let comps ← (match eth_iface.veth with
      | some veth_conf =>
        if veth_peer_exist_in_desire then .ok ([] : List NmConnection)
        else do
          let p ← create_veth_peer_profile_if_not_found veth_conf.peer
            eth_iface.base.name exist_nm_conns stable_uuid rand
          .ok [p]
      | none => .ok ([] : List NmConnection))
    .ok (gen_nm_sriov_setting eth_iface c, comps)
  | .MacVlan i =>
    .ok ((match i.mac_vlan with
      | some conf => { nm_conn with mac_vlan := some (NmSettingMacVlan.ofConf conf) }
      | none => nm_conn), [])
  | .MacVtap i =>
    .ok ((match i.mac_vtap with
      | some conf => { nm_conn with mac_vlan := some (NmSettingMacVlan.ofConf conf) }
      | none => nm_conn), [])
  | .Vrf i =>
    .ok ((match i.vrf with
      | some vrf_conf => { nm_conn with vrf := some (NmSettingVrf.ofConf vrf_conf) }
      | none => nm_conn), [])
  | .InfiniBand i => .ok (gen_nm_ib_setting i nm_conn, [])
  | _ => .ok (nm_conn, [])

/-- Cascade cleanup of the Compiler (lines 212–228 of the source): drop
the bridge-port group unless the profile's controller family is "bridge";
drop the switch-interface group unless it is "ovs-port"; recompute the
bridge-port group from a supplied Linux-bridge controller interface; and
drop the switch-interface group when the interface's controller binding
was explicitly cleared with the empty-string sentinel. -/
def cascade_cleanup (base_controller : Option String)
    (ctrl_iface : Option Interface) (c : NmConnection) : NmConnection :=
  let c1 :=
    if c.controller_type ≠ some NM_SETTING_BRIDGE_SETTING_NAME then
      { c with bridge_port := none }
    else c
  let c2 :=
    if c1.controller_type ≠ some NM_SETTING_OVS_PORT_SETTING_NAME then
      { c1 with ovs_iface := none }
    else c1
  let c3 :=
    match ctrl_iface with
    | some (.LinuxBridge br_iface) => gen_nm_br_port_setting br_iface c2
    | _ => c2
  if base_controller = some "" then { c3 with ovs_iface := none } else c3

/-- Starting profile of the Compiler's normal path (line 112–113 of the
source): a clone of the matched existing profile, or a fresh default, its
runtime flags cleared. -/
def init_nm_conn (exist_nm_conns : List NmConnection)
    (nm_ac_uuids : List String) (base_iface : BaseInterface) : NmConnection :=
  match get_exist_profile exist_nm_conns base_iface.name
      base_iface.iface_type nm_ac_uuids with
  | some c => { c with flags := [] }
  | none => { flags := [] }

/-- Always-invoked leaf generators of the Compiler (lines 128–135 of the
source, between the IP settings and the diagnostics tooling): wired —
skipped for the InfiniBand family —, switch extended attributes, 802.1x,
and user data. -/
def chain_universal (iface : Interface) (c : NmConnection) : NmConnection :=
  gen_nm_user_setting iface (gen_nm_802_1x_setting iface
    (gen_nm_ovs_ext_ids_setting iface
      (if iface.iface_type ≠ .InfiniBand then gen_nm_wired_setting iface c
        else c)))

/-- Implicit switch-port companion synthesis of the Compiler (lines
230–248 of the source): when the interface declares a switch-bridge
controller by name and no controller interface object was supplied in the
call, append a synthesized switch-port Companion for that controller. -/
def implicit_port_companion (iface : Interface)
    (ctrl_iface : Option Interface) (stable_uuid : Bool) (rand : String)
    (companions : List NmConnection) :
    Except NmstateError (List NmConnection) :=
  if iface.base_iface.controller_type = some InterfaceType.OvsBridge ∧
      ctrl_iface.isNone then
    match iface.base_iface.controller with
    | some ctrl_name => do
      let pc ← create_ovs_port_nm_conn ctrl_name { name := iface.name } none
        stable_uuid rand
      .ok (companions ++ [pc])
    | none => .ok companions
  else .ok companions

/-- Normal (non-promotion) path of the Compiler (lines 112–252 of the
source): clone the matched existing profile or start fresh, clear the
runtime flags, compute the stable-identity flag, run the Identity Assigner
and the leaf generators, dispatch on the family, apply the cascade
cleanup, synthesize the implicit switch-port companion, and prepend the
primary profile. -/
def iface_norm_path (iface : Interface) (ctrl_iface : Option Interface)
    (exist_nm_conns : List NmConnection) (nm_ac_uuids : List String)
    (veth_peer_exist_in_desire : Bool) (rand : String) :
    Except NmstateError (List NmConnection) := do
  let c1 ← gen_nm_conn_setting iface
    (init_nm_conn exist_nm_conns nm_ac_uuids iface.base_iface)
    exist_nm_conns.isEmpty rand
  let c2 ← gen_nm_ip_setting iface iface.base_iface.routes
    iface.base_iface.rules c1
  let c7 ← gen_ethtool_setting iface (chain_universal iface c2)
  let dres ← iface_specific_dispatch iface exist_nm_conns nm_ac_uuids
    veth_peer_exist_in_desire exist_nm_conns.isEmpty rand c7
  let ret ← implicit_port_companion iface ctrl_iface exist_nm_conns.isEmpty
    rand dres.2
  .ok (cascade_cleanup iface.base_iface.controller ctrl_iface dres.1 :: ret)

/-- Strip of the substituted live interface in the externally-managed
promotion rule (lines 77–81 of the source): drop any link-peer
configuration and coerce the family tag to plain physical link. -/
def strip_veth_to_eth : Interface → Interface
  | .Ethernet eth_iface =>
    .Ethernet { eth_iface with
      veth := none,
      base := { eth_iface.base with iface_type := .Ethernet } }
  | i => i

/-- Fuel-indexed Connection Compiler `iface_to_nm_connections`.  The Rust
function recurses on itself in the two promotion rules with no syntactic
bound; the fuel makes that recursion a total Lean function, `none` marking
fuel exhaustion (which, per the one-level-recursion claim, is never
reached from fuel 2). -/
def iface_to_nm_connectionsF : Nat → Interface → Option Interface →
    List NmConnection → List String → Bool → NetworkState → String →
    Option (Except NmstateError (List NmConnection))
  | 0, _, _, _, _, _, _, _ => none
  | fuel + 1, iface, ctrl_iface, exist_nm_conns, nm_ac_uuids,
      veth_peer_exist_in_desire, cur_net_state, rand =>
    let base_iface := iface.base_iface
    let exist_nm_conn := get_exist_profile exist_nm_conns base_iface.name
      base_iface.iface_type nm_ac_uuids
    if iface.is_up_exist_config then
      match exist_nm_conn with
      | some nm_conn =>
        if !iface.is_userspace &&
            nm_conn.flags.contains NmSettingsConnectionFlag.External then
          match cur_net_state.get_kernel_iface_with_route iface.name with
          | some cur_iface =>
            iface_to_nm_connectionsF fuel (strip_veth_to_eth cur_iface)
              ctrl_iface exist_nm_conns nm_ac_uuids veth_peer_exist_in_desire
              cur_net_state rand
          | none => some (.ok [nm_conn])
        else some (.ok [nm_conn])
      | none =>
        if !iface.is_userspace then
          match cur_net_state.get_kernel_iface_with_route iface.name with
          | some cur_iface =>
            if cur_iface.is_ignore then
              iface_to_nm_connectionsF fuel cur_iface ctrl_iface exist_nm_conns
                nm_ac_uuids veth_peer_exist_in_desire cur_net_state rand
            else
              some (iface_norm_path iface ctrl_iface exist_nm_conns nm_ac_uuids
                veth_peer_exist_in_desire rand)
          | none =>
            some (iface_norm_path iface ctrl_iface exist_nm_conns nm_ac_uuids
              veth_peer_exist_in_desire rand)
        else
          some (iface_norm_path iface ctrl_iface exist_nm_conns nm_ac_uuids
            veth_peer_exist_in_desire rand)
    else
      some (iface_norm_path iface ctrl_iface exist_nm_conns nm_ac_uuids
        veth_peer_exist_in_desire rand)

/-- The Connection Compiler `iface_to_nm_connections`, at the fuel (2)
that the one-level-recursion invariant proves sufficient. -/
def iface_to_nm_connections (iface : Interface) (ctrl_iface : Option Interface)
    (exist_nm_conns : List NmConnection) (nm_ac_uuids : List String)
    (veth_peer_exist_in_desire : Bool) (cur_net_state : NetworkState)
    (rand : String) : Option (Except NmstateError (List NmConnection)) :=
  iface_to_nm_connectionsF 2 iface ctrl_iface exist_nm_conns nm_ac_uuids
    veth_peer_exist_in_desire cur_net_state rand

/- ----------------------------------------------------------------------
Spec-side characterizations and result projections used by the claim
theorems.
---------------------------------------------------------------------- -/

/-- Spec-side candidate predicate of the Profile Matcher (claim C2): the
profile's interface name equals the requested name and its on-wire type
either equals the mapped requested type, or is the veth type while the
mapped requested type is plain ethernet. -/
def matcher_is_candidate (iface_name : String) (nm_iface_type : String)
    (c : NmConnection) : Bool :=
  c.iface_name == some iface_name &&
    (c.iface_type == some nm_iface_type ||
      (nm_iface_type == NM_SETTING_WIRED_SETTING_NAME &&
        c.iface_type == some NM_SETTING_VETH_SETTING_NAME))

/-- Spec-side activity test of the Profile Matcher: the profile carries a
unique identifier that appears in the active-identifier set. -/
def matcher_is_active (nm_ac_uuids : List String) (c : NmConnection) : Bool :=
  match c.uuid with
  | some uuid => nm_ac_uuids.contains uuid
  | none => false

/-- Spec-side restatement of the Profile Matcher (claim C2): among the
candidates, the first one in input order that is active; otherwise the
last candidate in input order; `none` without candidates (or when the
requested family does not map). -/
def get_exist_profile_spec (exist_nm_conns : List NmConnection)
    (iface_name : String) (iface_type : InterfaceType)
    (nm_ac_uuids : List String) : Option NmConnection :=
  match iface_type_to_nm iface_type with
  | .error _ => none
  | .ok nm_iface_type =>
    let cands := exist_nm_conns.filter (matcher_is_candidate iface_name nm_iface_type)
    match cands.find? (matcher_is_active nm_ac_uuids) with
    | some c => some c
    | none => cands.getLast?

/-- Kind of the error of a failed computation, `none` on success. -/
def errKind {α : Type} : Except NmstateError α → Option ErrorKind
  | .error e => some e.kind
  | .ok _ => none

/-- Head profile of a Compiler result: the primary profile of a successful
compilation, `none` on failure or fuel exhaustion. -/
def headConn : Option (Except NmstateError (List NmConnection)) →
    Option NmConnection
  | some (.ok (c :: _)) => some c
  | _ => none

/-- Whether the primary profile of a (successful) Compiler result carries
the expected unique identifier; vacuously true on failure. -/
def primary_uuid_is (r : Option (Except NmstateError (List NmConnection)))
    (expected : String) : Bool :=
  match headConn r with
  | some c => c.uuid == some expected
  | none => true

/-- The cascade-cleanup invariant of claim C4 on the primary profile of a
successful compilation: the bridge-port group is absent unless the
controller family is "bridge", and the switch-interface group is absent
unless it is "ovs-port"; vacuously true on failure. -/
def cascade_inv (r : Option (Except NmstateError (List NmConnection))) : Bool :=
  match headConn r with
  | some c =>
    (c.controller_type == some NM_SETTING_BRIDGE_SETTING_NAME ||
      c.bridge_port.isNone) &&
    (c.controller_type == some NM_SETTING_OVS_PORT_SETTING_NAME ||
      c.ovs_iface.isNone)
  | none => true

/-- The switch-interface half of the cascade-cleanup invariant alone, on
the primary profile of a successful compilation: the ovs-interface
setting group is absent unless the controller family is "ovs-port";
vacuously true on failure.  Unlike the bridge-port half, this half is not
disturbed by a supplied Linux-bridge controller interface. -/
def ovs_iface_inv (r : Option (Except NmstateError (List NmConnection))) :
    Bool :=
  match headConn r with
  | some c =>
    c.controller_type == some NM_SETTING_OVS_PORT_SETTING_NAME ||
      c.ovs_iface.isNone
  | none => true

/-- Whether a supplied controller interface object is a Linux bridge. -/
def ctrl_is_linux_bridge : Option Interface → Bool
  | some (.LinuxBridge _) => true
  | _ => false

/-- The two-profile shape of claim C3: the compilation succeeded with
exactly two profiles, the primary (bound to the interface's name) at index
0 and a synthesized switch-port profile (generic switch-port on-wire
family, attached to the named controller bridge) at index 1. -/
def two_profiles_shape (r : Option (Except NmstateError (List NmConnection)))
    (iface_name ctrl_name : String) : Bool :=
  match r with
  | some (.ok [p, q]) =>
    p.iface_name == some iface_name &&
    q.iface_name == some iface_name &&
    q.iface_type == some NM_SETTING_OVS_PORT_SETTING_NAME &&
    q.connection.bind (fun s => s.controller) == some ctrl_name &&
    q.connection.bind (fun s => s.controller_type) ==
      some NM_SETTING_OVS_BRIDGE_SETTING_NAME
  | _ => false

/-- Whether the interface's own configuration produces no Companion
profiles in the family dispatch: a switch bridge with no declared ports,
a physical link without virtual-pair configuration (or whose peer is in
the desired set), or any other family. -/
def no_dispatch_companions (iface : Interface)
    (veth_peer_exist_in_desire : Bool) : Bool :=
  match iface with
  | .OvsBridge b => b.port_confs.isEmpty
  | .Ethernet e => e.veth.isNone || veth_peer_exist_in_desire
  | _ => true

/-- Whether a Compiler result keeps a profile at index 0 (the primary):
a successful compilation never returns an empty list; vacuously true on
failure. -/
def primary_at_index0
    (r : Option (Except NmstateError (List NmConnection))) : Bool :=
  match r with
  | some (.ok l) => !l.isEmpty
  | _ => true

/-- Whether the interface's multipath-TCP configuration, if any, is
acceptable to its converter. -/
def mptcp_acceptable (b : BaseInterface) : Bool :=
  match b.mptcp with
  | some m =>
    !(m.address_flags.contains "signal" && m.address_flags.contains "fullmesh")
  | none => true

/-- Whether the interface's declared controller family, if any, maps to an
on-wire family string. -/
def controller_type_mappable (b : BaseInterface) : Bool :=
  match b.controller_type with
  | some ct => ct.is_recognized
  | none => true

/-- The identity-preservation check of claim C6 on an Identity Assigner
result: on success, the identity sub-record keeps the given unique
identifier and display name while the interface-name binding and
autoconnect are (re)assigned; vacuously true on failure. -/
def identity_preserved (r : Except NmstateError NmConnection)
    (cs : NmSettingConnection) (iface_name : String) : Bool :=
  match r with
  | .ok c =>
    match c.connection with
    | some s =>
      s.uuid == cs.uuid && s.id == cs.id &&
        s.iface_name == some iface_name && s.autoconnect == some true
    | none => false
  | .error _ => true

/-- The controller-override check of claim C7 on an Identity Assigner
result: on success, the stored controller is the declared name and the
stored controller family is "ovs-port", except that an interface whose own
family is the generic switch-port family keeps "ovs-bridge"; vacuously
true on failure. -/
def ctrl_override_ok (r : Except NmstateError NmConnection)
    (ctrl_name : String) (own_is_ovs_port : Bool) : Bool :=
  match r with
  | .ok c =>
    c.connection.bind (fun s => s.controller) == some ctrl_name &&
      c.connection.bind (fun s => s.controller_type) ==
        some (if own_is_ovs_port then NM_SETTING_OVS_BRIDGE_SETTING_NAME
          else NM_SETTING_OVS_PORT_SETTING_NAME)
  | .error _ => true

/- ----------------------------------------------------------------------
Theorems.
---------------------------------------------------------------------- -/

/-- Claim C9: for every interface-family value outside the recognized set
of families, the Type Mapper `iface_type_to_nm` returns a not-implemented
(unsupported-feature) failure rather than an on-wire type string. -/
theorem iface_type_to_nm_unsupported (t : InterfaceType)
    (h : t.is_recognized = false) :
    errKind (iface_type_to_nm t) = some ErrorKind.NotImplementedError := by
  cases t <;> simp_all [InterfaceType.is_recognized, iface_type_to_nm, errKind]

/-- Witness for claim C9 at the loopback family. -/
theorem iface_type_to_nm_unsupported_witness :
    InterfaceType.Loopback.is_recognized = false ∧
      errKind (iface_type_to_nm .Loopback) =
        some ErrorKind.NotImplementedError :=
  ⟨by decide, iface_type_to_nm_unsupported .Loopback (by decide)⟩

/-- Claim C10: the Revert Planner `generate_revert_extra` is a total
function (its embedding needs no fuel and returns a plain value, internal
sanitize errors being discarded by construction), and it mutates at most
the `ipv4` and `ipv6` fields of `self`: every other field of the result
equals the corresponding field of `self`.  `desired` and `current` are
taken by value (read-only borrows in the source), so they are unchanged by
construction. -/
theorem generate_revert_extra_frame (self desired current : BaseInterface) :
    (self.generate_revert_extra desired current).name = self.name ∧
    (self.generate_revert_extra desired current).iface_type = self.iface_type ∧
    (self.generate_revert_extra desired current).state = self.state ∧
    (self.generate_revert_extra desired current).controller = self.controller ∧
    (self.generate_revert_extra desired current).controller_type =
      self.controller_type ∧
    (self.generate_revert_extra desired current).routes = self.routes ∧
    (self.generate_revert_extra desired current).rules = self.rules ∧
    (self.generate_revert_extra desired current).lldp = self.lldp ∧
    (self.generate_revert_extra desired current).mptcp = self.mptcp ∧
    (self.generate_revert_extra desired current).ovsdb = self.ovsdb ∧
    (self.generate_revert_extra desired current).ieee8021x = self.ieee8021x ∧
    (self.generate_revert_extra desired current).description =
      self.description ∧
    (self.generate_revert_extra desired current).ethtool = self.ethtool ∧
    (self.generate_revert_extra desired current).mtu = self.mtu ∧
    (self.generate_revert_extra desired current).can_have_ip =
      self.can_have_ip ∧
    (self.generate_revert_extra desired current).is_up_exist_config =
      self.is_up_exist_config := by
  simp only [BaseInterface.generate_revert_extra]
  split <;> split <;> split <;> simp

/-- Claim C8: if the desired base cannot carry IP addressing and the base
being reverted can, `generate_revert_extra` restores both address families
wholesale from the current base, modulo only the final non-strict sanitize
normalization. -/
theorem generate_revert_extra_wholesale (self desired current : BaseInterface)
    (h1 : desired.can_have_ip = false) (h2 : self.can_have_ip = true) :
    (self.generate_revert_extra desired current).ipv4 =
      current.ipv4.map (fun i => (i.sanitize false).1) ∧
    (self.generate_revert_extra desired current).ipv6 =
      current.ipv6.map (fun i => (i.sanitize false).1) := by
  simp only [BaseInterface.generate_revert_extra, h1, h2, Bool.not_false,
    Bool.and_self, if_true]
  split <;> split <;> simp

/-- Witness for claim C8: a desired base without IP capability and a
current base with both address families configured. -/
theorem generate_revert_extra_wholesale_witness :
    ({ can_have_ip := false } : BaseInterface).can_have_ip = false ∧
    ({ name := "eth0" } : BaseInterface).can_have_ip = true ∧
    ((({ name := "eth0" } : BaseInterface).generate_revert_extra
        { can_have_ip := false }
        { ipv4 := some { enabled := true, addresses := ["192.0.2.5/24", ""] },
          ipv6 := some { enabled := true, addresses := ["2001:db8::2/64"] } }).ipv4 =
      (some { enabled := true, addresses := ["192.0.2.5/24", ""] } :
        Option InterfaceIp).map (fun i => (i.sanitize false).1) ∧
    (({ name := "eth0" } : BaseInterface).generate_revert_extra
        { can_have_ip := false }
        { ipv4 := some { enabled := true, addresses := ["192.0.2.5/24", ""] },
          ipv6 := some { enabled := true, addresses := ["2001:db8::2/64"] } }).ipv6 =
      (some { enabled := true, addresses := ["2001:db8::2/64"] } :
        Option InterfaceIp).map (fun i => (i.sanitize false).1)) :=
  ⟨rfl, rfl, generate_revert_extra_wholesale _ _ _ rfl rfl⟩

/-- Bind of a successful `Except` computation. -/
theorem except_bind_ok {a : Type} {b : Type} (x : a)
    (f : a → Except NmstateError b) : (Except.ok x >>= f) = f x := rfl

/-- Bind of a failed `Except` computation. -/
theorem except_bind_error {a : Type} {b : Type} (e : NmstateError)
    (f : a → Except NmstateError b) :
    ((Except.error e : Except NmstateError a) >>= f) = .error e := rfl

/-- The multipath-TCP step touches only the `mptcp_flags` field of the
identity sub-record. -/
theorem conn_set_mptcp_preserves (i : Interface) (s s4 : NmSettingConnection)
    (h : conn_set_mptcp i s = .ok s4) :
    s4.uuid = s.uuid ∧ s4.id = s.id ∧ s4.iface_name = s.iface_name ∧
      s4.autoconnect = s.autoconnect ∧ s4.controller = s.controller ∧
      s4.controller_type = s.controller_type := by
  unfold conn_set_mptcp apply_mptcp_conf at h
  split at h
  · split at h
    · cases h
    · injection h with h2
      subst h2
      simp
  · injection h with h2
    subst h2
    simp

/-- The basic/controller/LLDP assignment chain keeps the unique identifier
and display name and (re)assigns the interface-name binding and
autoconnect. -/
theorem conn_chain_fields (i : Interface) (nct : Option String)
    (cs : NmSettingConnection) :
    (conn_set_lldp i (conn_set_controller i nct (conn_set_basic i cs))).uuid =
      cs.uuid ∧
    (conn_set_lldp i (conn_set_controller i nct (conn_set_basic i cs))).id =
      cs.id ∧
    (conn_set_lldp i (conn_set_controller i nct
      (conn_set_basic i cs))).iface_name = some i.name ∧
    (conn_set_lldp i (conn_set_controller i nct
      (conn_set_basic i cs))).autoconnect = some true := by
  simp only [conn_set_lldp, conn_set_controller, conn_set_basic]
  (repeat' split) <;> simp

/-- Controller assignment under a non-empty declared name whose family
maps to the switch-bridge on-wire family: the name is stored and the
family is overridden to the generic switch-port family unless the
interface's own family is the generic switch-port family. -/
theorem conn_set_controller_override (i : Interface) (s : NmSettingConnection)
    (n : String) (h1 : i.base_iface.controller = some n) (h2 : n ≠ "") :
    (conn_set_controller i (some "ovs-bridge") s).controller = some n ∧
    (conn_set_controller i (some "ovs-bridge") s).controller_type =
      some (if i.iface_type = .Other "ovs-port" then "ovs-bridge"
        else "ovs-port") := by
  simp only [conn_set_controller, h1]
  by_cases hp : i.iface_type = InterfaceType.Other "ovs-port" <;>
    simp [h2, hp]

/-- The LLDP step does not touch the controller linkage. -/
theorem conn_set_lldp_ctrl (i : Interface) (s : NmSettingConnection) :
    (conn_set_lldp i s).controller = s.controller ∧
      (conn_set_lldp i s).controller_type = s.controller_type := by
  simp only [conn_set_lldp]
  split <;> simp

/-- Claim C6: whenever the profile passed to `gen_nm_conn_setting` already
carries a connection identity sub-record, the resulting profile's identity
sub-record keeps that record's unique identifier and display name
unchanged — no new identifier is generated, neither random nor derived —
while the interface-name binding and autoconnect are (re)assigned. -/
theorem gen_preserves_identity (iface : Interface)
    (nm_conn : NmConnection) (stable_uuid : Bool) (rand : String)
    (cs : NmSettingConnection) (h : nm_conn.connection = some cs) :
    identity_preserved (gen_nm_conn_setting iface nm_conn stable_uuid rand)
      cs iface.name = true := by
  simp only [gen_nm_conn_setting, conn_set_init, h, except_bind_ok]
  cases hmc : map_ctrl_type iface with
  | error e => simp [except_bind_error, identity_preserved]
  | ok nct =>
    simp only [except_bind_ok]
    cases hms : conn_set_mptcp iface
        (conn_set_lldp iface (conn_set_controller iface nct
          (conn_set_basic iface cs))) with
    | error e => simp [except_bind_error, identity_preserved]
    | ok s4 =>
      simp only [except_bind_ok, identity_preserved]
      have h4 := conn_set_mptcp_preserves _ _ _ hms
      have h5 := conn_chain_fields iface nct cs
      simp [h4.1, h4.2.1, h4.2.2.1, h4.2.2.2.1, h5.1, h5.2.1, h5.2.2.1,
        h5.2.2.2]

/-- Witness for claim C6: a profile that already carries an identity
sub-record keeps its identifier and display name through the Identity
Assigner. -/
theorem gen_preserves_identity_witness :
    ({ connection := some { id := some "keep-id", uuid := some "keep-uuid" } } :
      NmConnection).connection =
      some { id := some "keep-id", uuid := some "keep-uuid" } ∧
    identity_preserved
      (gen_nm_conn_setting
        (.Ethernet { base := { name := "eth0", iface_type := .Ethernet } })
        { connection := some { id := some "keep-id", uuid := some "keep-uuid" } }
        false "RANDOM")
      { id := some "keep-id", uuid := some "keep-uuid" }
      (Interface.name
        (.Ethernet { base := { name := "eth0", iface_type := .Ethernet } })) =
      true :=
  ⟨rfl, gen_preserves_identity _ _ _ _ _ rfl⟩

/-- Claim C7: for every interface with a non-empty declared controller
name whose declared controller family maps to the "ovs-bridge" on-wire
type, identity assignment stores the declared name as controller and
stores controller family "ovs-port" when the interface's own family is not
the generic switch-port family, "ovs-bridge" only when it is. -/
theorem gen_ctrl_override (iface : Interface) (nm_conn : NmConnection)
    (stable_uuid : Bool) (rand : String) (n : String) (ct : InterfaceType)
    (h1 : iface.base_iface.controller = some n) (h2 : n ≠ "")
    (h3 : iface.base_iface.controller_type = some ct)
    (h4 : iface_type_to_nm ct = .ok "ovs-bridge") :
    ctrl_override_ok (gen_nm_conn_setting iface nm_conn stable_uuid rand) n
      (iface.iface_type == .Other "ovs-port") = true := by
  have hmc : map_ctrl_type iface = .ok (some "ovs-bridge") := by
    simp [map_ctrl_type, h3, h4, except_bind_ok]
  simp only [gen_nm_conn_setting]
  cases hinit : conn_set_init iface nm_conn stable_uuid rand with
  | error e => simp [except_bind_error, ctrl_override_ok]
  | ok s0 =>
    simp only [except_bind_ok, hmc]
    cases hms : conn_set_mptcp iface
        (conn_set_lldp iface (conn_set_controller iface (some "ovs-bridge")
          (conn_set_basic iface s0))) with
    | error e => simp [except_bind_error, ctrl_override_ok]
    | ok s4 =>
      simp only [except_bind_ok, ctrl_override_ok]
      have hp := conn_set_mptcp_preserves _ _ _ hms
      have hl := conn_set_lldp_ctrl iface
        (conn_set_controller iface (some "ovs-bridge") (conn_set_basic iface s0))
      have hc := conn_set_controller_override iface (conn_set_basic iface s0)
        n h1 h2
      by_cases hq : iface.iface_type = InterfaceType.Other "ovs-port" <;>
        simp [hp.2.2.2.2.1, hp.2.2.2.2.2, hl.1, hl.2, hc.1, hc.2, hq,
          NM_SETTING_OVS_BRIDGE_SETTING_NAME, NM_SETTING_OVS_PORT_SETTING_NAME]

/-- Witness for claim C7: an ethernet interface attached by name to a
switch bridge gets controller family "ovs-port". -/
theorem gen_ctrl_override_witness :
    (Interface.Ethernet
        { base := { name := "eth3", iface_type := .Ethernet,
                    controller := some "br0",
                    controller_type := some .OvsBridge } }).base_iface.controller =
      some "br0" ∧
    "br0" ≠ "" ∧
    (Interface.Ethernet
        { base := { name := "eth3", iface_type := .Ethernet,
                    controller := some "br0",
                    controller_type := some .OvsBridge } }).base_iface.controller_type =
      some .OvsBridge ∧
    iface_type_to_nm .OvsBridge = .ok "ovs-bridge" ∧
    ctrl_override_ok
      (gen_nm_conn_setting
        (.Ethernet
          { base := { name := "eth3", iface_type := .Ethernet,
                      controller := some "br0",
                      controller_type := some .OvsBridge } })
        {} true "R")
      "br0"
      ((Interface.Ethernet
          { base := { name := "eth3", iface_type := .Ethernet,
                      controller := some "br0",
                      controller_type := some .OvsBridge } }).iface_type ==
        .Other "ovs-port") = true :=
  ⟨rfl, by decide, rfl, rfl,
    gen_ctrl_override _ _ _ _ _ _ rfl (by decide) rfl rfl⟩

/-- The Bool candidate test agrees with the claim's candidate
proposition. -/
theorem matcher_candidate_iff (a b : String) (c : NmConnection) :
    matcher_is_candidate a b c = true ↔
      (c.iface_name = some a ∧
        (c.iface_type = some b ∨
          (b = NM_SETTING_WIRED_SETTING_NAME ∧
            c.iface_type = some NM_SETTING_VETH_SETTING_NAME))) := by
  simp [matcher_is_candidate]

/-- When the requested family does not map, the matcher loop skips every
profile and pops from the accumulated candidates alone. -/
theorem get_exist_profile_go_err (iface_name : String)
    (iface_type : InterfaceType) (nm_ac_uuids : List String)
    (e : NmstateError) (h : iface_type_to_nm iface_type = .error e)
    (l found : List NmConnection) :
    get_exist_profile_go iface_name iface_type nm_ac_uuids l found =
      found.getLast? := by
  induction l generalizing found with
  | nil => rfl
  | cons c rest ih => simp only [get_exist_profile_go, h]; exact ih found

/-- Invariant of the matcher loop: the result is the first active
candidate of the remaining input, otherwise the last of the accumulated
and remaining candidates. -/
theorem get_exist_profile_go_ok (iface_name : String)
    (iface_type : InterfaceType) (nm_ac_uuids : List String)
    (nt : String) (h : iface_type_to_nm iface_type = .ok nt)
    (l found : List NmConnection) :
    get_exist_profile_go iface_name iface_type nm_ac_uuids l found =
      (match (l.filter (matcher_is_candidate iface_name nt)).find?
          (matcher_is_active nm_ac_uuids) with
      | some c => some c
      | none =>
        (found ++ l.filter (matcher_is_candidate iface_name nt)).getLast?) := by
  induction l generalizing found with
  | nil => simp [get_exist_profile_go]
  | cons c rest ih =>
    simp only [get_exist_profile_go, h]
    by_cases hc : (c.iface_name = some iface_name ∧
        (c.iface_type = some nt ∨
          (nt = NM_SETTING_WIRED_SETTING_NAME ∧
            c.iface_type = some NM_SETTING_VETH_SETTING_NAME)))
    · rw [if_pos hc]
      have hcb : matcher_is_candidate iface_name nt c = true :=
        (matcher_candidate_iff iface_name nt c).2 hc
      by_cases ha : matcher_is_active nm_ac_uuids c = true
      · have ham : (match c.uuid with
            | some uuid => nm_ac_uuids.contains uuid
            | none => false) = true := ha
        rw [ham]
        simp only [List.filter_cons, hcb, if_true]
        rw [List.find?_cons_of_pos _ ha]
      · have ham : (match c.uuid with
            | some uuid => nm_ac_uuids.contains uuid
            | none => false) = false := by
          simp only [matcher_is_active] at ha
          exact Bool.eq_false_iff.2 ha
        rw [ham]
        simp only [Bool.false_eq_true, if_false]
        rw [ih (found ++ [c])]
        simp only [List.filter_cons, hcb, if_true]
        rw [List.find?_cons_of_neg _ (by simpa using ha)]
        split
        · rfl
        · simp
    · rw [if_neg hc]
      have hcb : matcher_is_candidate iface_name nt c = false := by
        have := (matcher_candidate_iff iface_name nt c).1
        by_contra hx
        exact hc (this (by
          revert hx
          cases matcher_is_candidate iface_name nt c <;> simp))
      rw [ih found]
      simp only [List.filter_cons, hcb]
      simp

/-- Claim C2: the Profile Matcher `get_exist_profile` equals its
spec-side restatement — a profile is a candidate exactly when its
interface name equals the requested name and its on-wire type equals the
mapped requested type or is the veth type while the mapped type is plain
ethernet (the converse does not match); the result is the first candidate
in input order whose identifier is active, otherwise the last candidate in
input order, and `none` without candidates. -/
theorem get_exist_profile_characterization (exist_nm_conns : List NmConnection)
    (iface_name : String) (iface_type : InterfaceType)
    (nm_ac_uuids : List String) :
    get_exist_profile exist_nm_conns iface_name iface_type nm_ac_uuids =
      get_exist_profile_spec exist_nm_conns iface_name iface_type
        nm_ac_uuids := by
  unfold get_exist_profile get_exist_profile_spec
  cases h : iface_type_to_nm iface_type with
  | error e => rw [get_exist_profile_go_err _ _ _ _ h]; rfl
  | ok nt =>
    rw [get_exist_profile_go_ok _ _ _ _ h]
    simp

/-- The cascade-cleanup steps establish the controller-family invariant on
any profile when no Linux-bridge controller interface is supplied (the
bridge-port recomputation being the only step that can re-populate a
group after the two drops). -/
theorem cascade_cleanup_inv (bc : Option String) (ci : Option Interface)
    (c : NmConnection) (h : ctrl_is_linux_bridge ci = false) :
    (((cascade_cleanup bc ci c).controller_type ==
        some NM_SETTING_BRIDGE_SETTING_NAME ||
      (cascade_cleanup bc ci c).bridge_port.isNone) &&
    ((cascade_cleanup bc ci c).controller_type ==
        some NM_SETTING_OVS_PORT_SETTING_NAME ||
      (cascade_cleanup bc ci c).ovs_iface.isNone)) = true := by
  unfold cascade_cleanup
  cases ci with
  | none =>
    by_cases h1 : c.controller_type = some NM_SETTING_BRIDGE_SETTING_NAME <;>
      by_cases h2 : c.controller_type = some NM_SETTING_OVS_PORT_SETTING_NAME <;>
        by_cases h3 : bc = some "" <;>
          simp_all [NmConnection.controller_type,
            NM_SETTING_BRIDGE_SETTING_NAME, NM_SETTING_OVS_PORT_SETTING_NAME]
  | some i =>
    cases i
    case LinuxBridge b => simp [ctrl_is_linux_bridge] at h
    all_goals
      by_cases h1 : c.controller_type = some NM_SETTING_BRIDGE_SETTING_NAME <;>
        by_cases h2 : c.controller_type = some NM_SETTING_OVS_PORT_SETTING_NAME <;>
          by_cases h3 : bc = some "" <;>
            simp_all [NmConnection.controller_type,
              NM_SETTING_BRIDGE_SETTING_NAME, NM_SETTING_OVS_PORT_SETTING_NAME]

/-- An interface not marked "persist current state" always takes the
Compiler's normal path, at any fuel. -/
theorem compilerF_not_up (fuel : Nat) (iface : Interface)
    (ctrl_iface : Option Interface) (exist_nm_conns : List NmConnection)
    (nm_ac_uuids : List String) (vpe : Bool) (cur : NetworkState)
    (rand : String) (h : iface.is_up_exist_config = false) :
    iface_to_nm_connectionsF (fuel + 1) iface ctrl_iface exist_nm_conns
        nm_ac_uuids vpe cur rand =
      some (iface_norm_path iface ctrl_iface exist_nm_conns nm_ac_uuids vpe
        rand) := by
  simp [iface_to_nm_connectionsF, h]

/-- A successful normal-path compilation returns the cascade-cleaned
primary profile at index 0. -/
theorem norm_path_head (iface : Interface) (ctrl_iface : Option Interface)
    (exist_nm_conns : List NmConnection) (nm_ac_uuids : List String)
    (vpe : Bool) (rand : String) (l : List NmConnection)
    (h : iface_norm_path iface ctrl_iface exist_nm_conns nm_ac_uuids vpe
      rand = .ok l) :
    ∃ c8 ret, l =
      cascade_cleanup iface.base_iface.controller ctrl_iface c8 :: ret := by
  unfold iface_norm_path at h
  cases h1 : gen_nm_conn_setting iface
      (init_nm_conn exist_nm_conns nm_ac_uuids iface.base_iface)
      exist_nm_conns.isEmpty rand with
  | error e => rw [h1] at h; cases h
  | ok c1 =>
    rw [h1] at h
    simp only [except_bind_ok, gen_nm_ip_setting] at h
    cases h7 : gen_ethtool_setting iface
        (chain_universal iface
          { c1 with
              ipv4 := some { conf := iface.base_iface.ipv4,
                             routes := iface.base_iface.routes,
                             rules := iface.base_iface.rules },
              ipv6 := some { conf := iface.base_iface.ipv6,
                             routes := iface.base_iface.routes,
                             rules := iface.base_iface.rules } }) with
    | error e => rw [h7] at h; cases h
    | ok c7 =>
      rw [h7] at h
      simp only [except_bind_ok] at h
      cases hd : iface_specific_dispatch iface exist_nm_conns nm_ac_uuids vpe
          exist_nm_conns.isEmpty rand c7 with
      | error e => rw [hd] at h; cases h
      | ok dres =>
        rw [hd] at h
        simp only [except_bind_ok] at h
        cases hr : implicit_port_companion iface ctrl_iface
            exist_nm_conns.isEmpty rand dres.2 with
        | error e => rw [hr] at h; cases h
        | ok ret =>
          rw [hr] at h
          simp only [except_bind_ok] at h
          injection h with h2
          exact ⟨dres.1, ret, h2.symm⟩

/-- The switch-interface half of the cascade-cleanup invariant holds for
any supplied controller interface: the late bridge-port recomputation
touches only the bridge-port group. -/
theorem cascade_cleanup_ovs (bc : Option String) (ci : Option Interface)
    (c : NmConnection) :
    (((cascade_cleanup bc ci c).controller_type ==
        some NM_SETTING_OVS_PORT_SETTING_NAME) ||
      (cascade_cleanup bc ci c).ovs_iface.isNone) = true := by
  unfold cascade_cleanup gen_nm_br_port_setting
  by_cases h2 : c.controller_type = some NM_SETTING_OVS_PORT_SETTING_NAME <;>
    by_cases h1 : c.controller_type = some NM_SETTING_BRIDGE_SETTING_NAME <;>
      by_cases h3 : bc = some "" <;>
        (repeat' (first
          | split
          | simp_all [NmConnection.controller_type,
              NM_SETTING_OVS_PORT_SETTING_NAME,
              NM_SETTING_BRIDGE_SETTING_NAME]))

/-- Claim C4 (amended): for every successful compilation on the normal
(non-promotion) path, the returned primary profile has its ovs-interface
setting group absent whenever its controller family is not "ovs-port" —
unconditionally, including when a Linux-bridge controller interface
object is supplied — and its bridge-port setting group absent whenever
its controller family is not "bridge" provided no Linux-bridge controller
interface object is supplied in the call; when one is supplied, the late
bridge-port recomputation can re-populate the bridge-port group after the
cleanup (see the counterexample). -/
theorem compiler_cascade_inv (iface : Interface)
    (ctrl_iface : Option Interface) (exist_nm_conns : List NmConnection)
    (nm_ac_uuids : List String) (vpe : Bool) (cur : NetworkState)
    (rand : String) (h1 : iface.is_up_exist_config = false) :
    ovs_iface_inv (iface_to_nm_connectionsF 2 iface ctrl_iface exist_nm_conns
      nm_ac_uuids vpe cur rand) = true ∧
    (ctrl_is_linux_bridge ctrl_iface = false →
      cascade_inv (iface_to_nm_connectionsF 2 iface ctrl_iface exist_nm_conns
        nm_ac_uuids vpe cur rand) = true) := by
  rw [compilerF_not_up 1 iface ctrl_iface exist_nm_conns nm_ac_uuids vpe cur
    rand h1]
  cases hn : iface_norm_path iface ctrl_iface exist_nm_conns nm_ac_uuids vpe
      rand with
  | error e =>
    exact ⟨by simp [ovs_iface_inv, headConn],
      fun _ => by simp [cascade_inv, headConn]⟩
  | ok l =>
    obtain ⟨c8, ret, rfl⟩ := norm_path_head iface ctrl_iface exist_nm_conns
      nm_ac_uuids vpe rand l hn
    constructor
    · simp only [ovs_iface_inv, headConn]
      exact cascade_cleanup_ovs iface.base_iface.controller ctrl_iface c8
    · intro h2
      simp only [cascade_inv, headConn]
      exact cascade_cleanup_inv iface.base_iface.controller ctrl_iface c8 h2

/-- Witness for claim C4 (amended): a bond interface compiled with no
controller interface supplied exercises both halves, and the
counterexample's own input (a Linux-bridge controller interface supplied)
exercises the unconditional switch-interface half. -/
theorem compiler_cascade_inv_witness :
    (Interface.Bond
        { base := { name := "bond0", iface_type := .Bond } }).is_up_exist_config =
      false ∧
    ovs_iface_inv (iface_to_nm_connectionsF 2
      (.Bond { base := { name := "bond0", iface_type := .Bond } })
      none [] [] false {} "R") = true ∧
    ctrl_is_linux_bridge none = false ∧
    cascade_inv (iface_to_nm_connectionsF 2
      (.Bond { base := { name := "bond0", iface_type := .Bond } })
      none [] [] false {} "R") = true ∧
    (Interface.Ethernet
        { base := { name := "eth1", iface_type := .Ethernet,
                    controller := some "" } }).is_up_exist_config = false ∧
    ovs_iface_inv (iface_to_nm_connectionsF 2
      (.Ethernet
        { base := { name := "eth1", iface_type := .Ethernet,
                    controller := some "" } })
      (some (.LinuxBridge
        { base := { name := "br0", iface_type := .LinuxBridge },
          bridge_ports := [{ name := "eth1" }] }))
      [{ connection := some { iface_name := some "zzz",
                              iface_type := some "bond" } }]
      [] false {} "R") = true :=
  ⟨rfl,
    (compiler_cascade_inv
      (.Bond { base := { name := "bond0", iface_type := .Bond } })
      none [] [] false {} "R" rfl).1,
    rfl,
    (compiler_cascade_inv
      (.Bond { base := { name := "bond0", iface_type := .Bond } })
      none [] [] false {} "R" rfl).2 rfl,
    rfl,
    (compiler_cascade_inv
      (.Ethernet
        { base := { name := "eth1", iface_type := .Ethernet,
                    controller := some "" } })
      (some (.LinuxBridge
        { base := { name := "br0", iface_type := .LinuxBridge },
          bridge_ports := [{ name := "eth1" }] }))
      [{ connection := some { iface_name := some "zzz",
                              iface_type := some "bond" } }]
      [] false {} "R" rfl).1⟩

/-- Counterexample to claim C4 as stated: an ethernet interface whose
controller binding is the empty-string sentinel (so its compiled
controller family is cleared), compiled on the normal path with a
Linux-bridge controller interface supplied that declares it as a port —
the returned primary profile carries a bridge-port setting group although
its controller family is not "bridge". -/
theorem compiler_cascade_counterexample :
    (Interface.Ethernet
        { base := { name := "eth1", iface_type := .Ethernet,
                    controller := some "" } }).is_up_exist_config = false ∧
    cascade_inv (iface_to_nm_connectionsF 2
      (.Ethernet
        { base := { name := "eth1", iface_type := .Ethernet,
                    controller := some "" } })
      (some (.LinuxBridge
        { base := { name := "br0", iface_type := .LinuxBridge },
          bridge_ports := [{ name := "eth1" }] }))
      [{ connection := some { iface_name := some "zzz",
                              iface_type := some "bond" } }]
      [] false {} "R") = false :=
  ⟨rfl, by decide⟩

/-- The live-interface strip of the externally-managed promotion rule
does not change the "persist current state" marker. -/
theorem strip_preserves_up_flag (i : Interface) :
    (strip_veth_to_eth i).is_up_exist_config = i.is_up_exist_config := by
  cases i <;> rfl

/-- An interface found by the live-state lookup is one of the current
interfaces, so under the spec's guarantee it is not a persist-marker. -/
theorem lookup_not_up (cur : NetworkState) (name : String) (i : Interface)
    (H : ∀ j ∈ cur.interfaces, Interface.is_up_exist_config j = false)
    (h : cur.get_kernel_iface_with_route name = some i) :
    i.is_up_exist_config = false := by
  unfold NetworkState.get_kernel_iface_with_route at h
  exact H i (List.mem_of_find?_eq_some h)

/-- Claim C5: under the spec's guarantee that interfaces of the current
live state are never bare "persist current state" markers, the Compiler
terminates on every input and its promotion self-recursion re-enters at
most one level: fuel 2 already computes the fixed result (`none`, the
fuel-exhaustion marker, is never returned), and any larger fuel returns
the same — i.e. a recursive call made with the substituted live interface
never itself takes either promotion branch again. -/
theorem compiler_one_level (iface : Interface) (ctrl_iface : Option Interface)
    (exist_nm_conns : List NmConnection) (nm_ac_uuids : List String)
    (vpe : Bool) (cur : NetworkState) (rand : String)
    (H : ∀ j ∈ cur.interfaces, Interface.is_up_exist_config j = false)
    (n : Nat) :
    iface_to_nm_connectionsF (n + 2) iface ctrl_iface exist_nm_conns
        nm_ac_uuids vpe cur rand =
      iface_to_nm_connectionsF 2 iface ctrl_iface exist_nm_conns nm_ac_uuids
        vpe cur rand ∧
    (iface_to_nm_connectionsF 2 iface ctrl_iface exist_nm_conns nm_ac_uuids
      vpe cur rand).isSome = true := by
  by_cases hu : iface.is_up_exist_config = true
  · have e2 : (2 : Nat) = 1 + 1 := rfl
    rw [e2]
    show iface_to_nm_connectionsF ((n + 1) + 1) iface ctrl_iface exist_nm_conns
        nm_ac_uuids vpe cur rand =
      iface_to_nm_connectionsF (1 + 1) iface ctrl_iface exist_nm_conns
        nm_ac_uuids vpe cur rand ∧ _
    simp only [iface_to_nm_connectionsF, hu, if_true]
    cases hex : get_exist_profile exist_nm_conns iface.base_iface.name
        iface.base_iface.iface_type nm_ac_uuids with
    | some nm_conn =>
      by_cases hflag : (!iface.is_userspace &&
          nm_conn.flags.contains NmSettingsConnectionFlag.External) = true
      · simp only [hflag, if_true]
        cases hlk : cur.get_kernel_iface_with_route iface.name with
        | some cur_iface =>
          have hf : (strip_veth_to_eth cur_iface).is_up_exist_config = false := by
            rw [strip_preserves_up_flag]
            exact lookup_not_up cur iface.name cur_iface H hlk
          simp [hf]
        | none => simp
      · simp only [hflag, if_false]
        simp
    | none =>
      by_cases hus : iface.is_userspace = true
      · simp [hus]
      · simp only [Bool.not_eq_true] at hus
        simp only [hus, Bool.not_false, if_true]
        cases hlk : cur.get_kernel_iface_with_route iface.name with
        | some cur_iface =>
          by_cases hig : cur_iface.is_ignore = true
          · simp only [hig, if_true]
            have hf : cur_iface.is_up_exist_config = false :=
              lookup_not_up cur iface.name cur_iface H hlk
            simp [hf]
          · simp [hig]
        | none => simp
  · simp only [Bool.not_eq_true] at hu
    rw [compilerF_not_up (n + 1) _ _ _ _ _ _ _ hu,
      compilerF_not_up 1 _ _ _ _ _ _ _ hu]
    simp

/-- Witness for claim C5 at an empty current network state. -/
theorem compiler_one_level_witness :
    (∀ j ∈ ({} : NetworkState).interfaces,
      Interface.is_up_exist_config j = false) ∧
    (iface_to_nm_connectionsF (0 + 2)
        (.Ethernet { base := { name := "eth9", iface_type := .Ethernet } })
        none [] [] false {} "R" =
      iface_to_nm_connectionsF 2
        (.Ethernet { base := { name := "eth9", iface_type := .Ethernet } })
        none [] [] false {} "R") ∧
    (iface_to_nm_connectionsF 2
      (.Ethernet { base := { name := "eth9", iface_type := .Ethernet } })
      none [] [] false {} "R").isSome = true :=
  ⟨by simp, (compiler_one_level _ _ _ _ _ _ _ (by simp) 0).1,
    (compiler_one_level _ _ _ _ _ _ _ (by simp) 0).2⟩

/-- The switch-port builder ignores the random identifier in stable mode. -/
theorem create_ovs_port_stable (r1 r2 : String) (br_name : String)
    (pc : OvsBridgePortConfig) (e : Option NmConnection) :
    create_ovs_port_nm_conn br_name pc e true r1 =
      create_ovs_port_nm_conn br_name pc e true r2 := by
  simp [create_ovs_port_nm_conn]

/-- The link-peer builder ignores the random identifier in stable mode. -/
theorem veth_peer_stable (r1 r2 : String) (peer iface_name : String)
    (exist : List NmConnection) :
    create_veth_peer_profile_if_not_found peer iface_name exist true r1 =
      create_veth_peer_profile_if_not_found peer iface_name exist true r2 := by
  simp [create_veth_peer_profile_if_not_found]

/-- The switch-port loop ignores the random identifier in stable mode. -/
theorem ovs_ports_build_stable (r1 r2 : String) (br_name : String)
    (exist : List NmConnection) (ac : List String)
    (l : List OvsBridgePortConfig) :
    ovs_ports_build br_name exist ac true r1 l =
      ovs_ports_build br_name exist ac true r2 l := by
  induction l with
  | nil => rfl
  | cons pc rest ih =>
    simp only [ovs_ports_build]
    rw [create_ovs_port_stable r1 r2]
    simp only [ih]

/-- The reuse-or-create step ignores the random identifier in stable
mode. -/
theorem conn_set_init_stable (r1 r2 : String) (iface : Interface)
    (c : NmConnection) :
    conn_set_init iface c true r1 = conn_set_init iface c true r2 := by
  unfold conn_set_init
  cases c.connection <;> simp

/-- The Identity Assigner ignores the random identifier in stable mode. -/
theorem gen_stable (r1 r2 : String) (iface : Interface) (c : NmConnection) :
    gen_nm_conn_setting iface c true r1 =
      gen_nm_conn_setting iface c true r2 := by
  unfold gen_nm_conn_setting
  rw [conn_set_init_stable r1 r2]

/-- The family dispatch ignores the random identifier in stable mode. -/
theorem dispatch_stable (r1 r2 : String) (iface : Interface)
    (exist : List NmConnection) (ac : List String) (vpe : Bool)
    (c : NmConnection) :
    iface_specific_dispatch iface exist ac vpe true r1 c =
      iface_specific_dispatch iface exist ac vpe true r2 c := by
  cases iface with
  | OvsBridge b =>
    simp only [iface_specific_dispatch]
    rw [ovs_ports_build_stable r1 r2]
  | Ethernet e =>
    simp only [iface_specific_dispatch]
    cases e.veth with
    | none => rfl
    | some v =>
      simp only []
      by_cases hv : vpe = true
      · simp [hv]
      · simp only [Bool.not_eq_true] at hv
        simp only [hv]
        rw [veth_peer_stable r1 r2]
  | _ => rfl

/-- The implicit switch-port companion synthesis ignores the random
identifier in stable mode. -/
theorem companion_stable (r1 r2 : String) (iface : Interface)
    (ctrl_iface : Option Interface) (l : List NmConnection) :
    implicit_port_companion iface ctrl_iface true r1 l =
      implicit_port_companion iface ctrl_iface true r2 l := by
  unfold implicit_port_companion
  split
  · cases iface.base_iface.controller with
    | none => rfl
    | some cn =>
      simp only []
      rw [create_ovs_port_stable r1 r2]
  · rfl

/-- With no existing profiles (stable-identity mode) the whole normal path
ignores the random identifier. -/
theorem iface_norm_path_stable (r1 r2 : String) (iface : Interface)
    (ctrl_iface : Option Interface) (ac : List String) (vpe : Bool) :
    iface_norm_path iface ctrl_iface [] ac vpe r1 =
      iface_norm_path iface ctrl_iface [] ac vpe r2 := by
  unfold iface_norm_path
  simp only [List.isEmpty_nil]
  rw [gen_stable r1 r2]
  simp only [dispatch_stable r1 r2, companion_stable r1 r2]

/-- With no existing profiles the Compiler's output does not depend on the
random identifier source. -/
theorem compilerF_empty_det (r1 r2 : String) (iface : Interface)
    (ctrl_iface : Option Interface) (ac : List String) (vpe : Bool)
    (cur : NetworkState) :
    iface_to_nm_connectionsF 2 iface ctrl_iface [] ac vpe cur r1 =
      iface_to_nm_connectionsF 2 iface ctrl_iface [] ac vpe cur r2 := by
  have e2 : (2 : Nat) = 1 + 1 := rfl
  rw [e2]
  simp only [iface_to_nm_connectionsF]
  simp only [iface_norm_path_stable r1 r2]

/-- The always-invoked leaf generators do not touch the identity
sub-record. -/
theorem chain_universal_conn (i : Interface) (c : NmConnection) :
    (chain_universal i c).connection = c.connection := by
  unfold chain_universal gen_nm_user_setting gen_nm_802_1x_setting
    gen_nm_ovs_ext_ids_setting gen_nm_wired_setting
  (repeat' split) <;> rfl

/-- The diagnostics-tooling generator does not touch the identity
sub-record. -/
theorem ethtool_conn (i : Interface) (c c7 : NmConnection)
    (h : gen_ethtool_setting i c = .ok c7) : c7.connection = c.connection := by
  unfold gen_ethtool_setting at h
  split at h <;> (injection h with h2; subst h2; rfl)

/-- The bridge-port generator does not touch the identity sub-record. -/
theorem gen_br_port_conn (b : LinuxBridgeInterface) (c : NmConnection) :
    (gen_nm_br_port_setting b c).connection = c.connection := by
  unfold gen_nm_br_port_setting
  split <;> rfl

/-- The cascade cleanup does not touch the identity sub-record. -/
theorem cascade_conn (b : Option String) (ci : Option Interface)
    (c : NmConnection) : (cascade_cleanup b ci c).connection = c.connection := by
  unfold cascade_cleanup
  (repeat' split) <;> (try simp [gen_br_port_conn]) <;> (repeat' split) <;> rfl

/-- The family dispatch does not touch the primary profile's identity
sub-record. -/
theorem dispatch_conn (iface : Interface) (exist : List NmConnection)
    (ac : List String) (vpe st : Bool) (r : String) (c : NmConnection)
    (out : NmConnection × List NmConnection)
    (h : iface_specific_dispatch iface exist ac vpe st r c = .ok out) :
    out.1.connection = c.connection := by
  cases iface with
  | OvsBridge b =>
    simp only [iface_specific_dispatch] at h
    cases hb : ovs_ports_build b.base.name exist ac st r b.port_confs with
    | error e => rw [hb] at h; simp [except_bind_error] at h
    | ok ports =>
      rw [hb] at h
      simp only [except_bind_ok] at h
      injection h with h2
      subst h2
      simp [gen_nm_ovs_br_setting]
  | Ethernet e =>
    simp only [iface_specific_dispatch] at h
    cases hv : e.veth with
    | none =>
      rw [hv] at h
      simp only [except_bind_ok] at h
      injection h with h2
      subst h2
      simp only []
      unfold gen_nm_sriov_setting
      split <;> rfl
    | some v =>
      rw [hv] at h
      by_cases hp : vpe = true
      · rw [hp] at h
        simp only [if_true, except_bind_ok] at h
        injection h with h2
        subst h2
        simp only []
        unfold gen_nm_sriov_setting
        split <;> rfl
      · simp only [Bool.not_eq_true] at hp
        rw [hp] at h
        simp only [Bool.false_eq_true, if_false] at h
        cases hc : create_veth_peer_profile_if_not_found v.peer e.base.name
            exist st r with
        | error er => rw [hc] at h; simp [except_bind_error] at h
        | ok p =>
          rw [hc] at h
          simp only [except_bind_ok] at h
          injection h with h2
          subst h2
          simp only []
          unfold gen_nm_sriov_setting
          split <;> rfl
  | LinuxBridge b =>
    simp only [iface_specific_dispatch] at h
    injection h with h2; subst h2; simp [gen_nm_br_setting]
  | Bond b =>
    simp only [iface_specific_dispatch] at h
    injection h with h2; subst h2; simp [gen_nm_bond_setting]
  | OvsInterface i =>
    simp only [iface_specific_dispatch] at h
    injection h with h2; subst h2; simp [gen_nm_ovs_iface_setting]
  | Vlan i =>
    simp only [iface_specific_dispatch] at h
    injection h with h2; subst h2; split <;> rfl
  | Vxlan i =>
    simp only [iface_specific_dispatch] at h
    injection h with h2; subst h2; split <;> rfl
  | MacVlan i =>
    simp only [iface_specific_dispatch] at h
    injection h with h2; subst h2; split <;> rfl
  | MacVtap i =>
    simp only [iface_specific_dispatch] at h
    injection h with h2; subst h2; split <;> rfl
  | Vrf i =>
    simp only [iface_specific_dispatch] at h
    injection h with h2; subst h2; split <;> rfl
  | InfiniBand i =>
    simp only [iface_specific_dispatch] at h
    injection h with h2; subst h2; simp [gen_nm_ib_setting]
  | Dummy b =>
    simp only [iface_specific_dispatch] at h
    injection h with h2; subst h2; rfl
  | Unknown b =>
    simp only [iface_specific_dispatch] at h
    injection h with h2; subst h2; rfl

/-- Profiles with the same identity sub-record have the same unique
identifier. -/
theorem uuid_eq_of_conn_eq (a c : NmConnection)
    (h : a.connection = c.connection) :
    NmConnection.uuid a = NmConnection.uuid c := by
  simp [NmConnection.uuid, h]

/-- A freshly created identity sub-record in stable mode carries the
namespaced stable identifier. -/
theorem conn_set_init_fresh_uuid (iface : Interface) (c : NmConnection)
    (r : String) (s0 : NmSettingConnection) (hc : c.connection = none)
    (h : conn_set_init iface c true r = .ok s0) :
    s0.uuid = some (uuid_from_name_and_type iface.name iface.iface_type) := by
  unfold conn_set_init at h
  rw [hc] at h
  cases hmap : iface_type_to_nm iface.iface_type with
  | error e => rw [hmap] at h; simp only [except_bind_error] at h; cases h
  | ok nt =>
    rw [hmap] at h
    simp only [except_bind_ok] at h
    injection h with h2
    subst h2
    simp

/-- The Identity Assigner, run in stable mode on a profile without an
identity sub-record, assigns the namespaced stable identifier. -/
theorem gen_fresh_uuid (iface : Interface) (c : NmConnection) (r : String)
    (hc : c.connection = none) (c1 : NmConnection)
    (h : gen_nm_conn_setting iface c true r = .ok c1) :
    NmConnection.uuid c1 =
      some (uuid_from_name_and_type iface.name iface.iface_type) := by
  unfold gen_nm_conn_setting at h
  cases hi : conn_set_init iface c true r with
  | error e => rw [hi] at h; simp only [except_bind_error] at h; cases h
  | ok s0 =>
    rw [hi] at h
    simp only [except_bind_ok] at h
    cases hmc : map_ctrl_type iface with
    | error e => rw [hmc] at h; simp only [except_bind_error] at h; cases h
    | ok nct =>
      rw [hmc] at h
      simp only [except_bind_ok] at h
      cases hms : conn_set_mptcp iface (conn_set_lldp iface
          (conn_set_controller iface nct (conn_set_basic iface s0))) with
      | error e => rw [hms] at h; simp only [except_bind_error] at h; cases h
      | ok s4 =>
        rw [hms] at h
        simp only [except_bind_ok] at h
        injection h with h2
        subst h2
        have hu := (conn_set_mptcp_preserves _ _ _ hms).1
        have hch := (conn_chain_fields iface nct s0).1
        have h0 := conn_set_init_fresh_uuid iface c r s0 hc hi
        simp [NmConnection.uuid, hu, hch, h0]

/-- A successful normal-path compilation with no existing profiles puts
the stable namespaced identifier on the primary profile at index 0. -/
theorem norm_path_empty_uuid (iface : Interface) (ctrl_iface : Option Interface)
    (ac : List String) (vpe : Bool) (r : String) (l : List NmConnection)
    (h : iface_norm_path iface ctrl_iface [] ac vpe r = .ok l) :
    ∃ c0 ret, l = c0 :: ret ∧
      NmConnection.uuid c0 =
        some (uuid_from_name_and_type iface.name iface.iface_type) := by
  unfold iface_norm_path at h
  simp only [List.isEmpty_nil] at h
  cases h1 : gen_nm_conn_setting iface (init_nm_conn [] ac iface.base_iface)
      true r with
  | error e => rw [h1] at h; simp only [except_bind_error] at h; cases h
  | ok c1 =>
    rw [h1] at h
    simp only [except_bind_ok, gen_nm_ip_setting] at h
    cases h7 : gen_ethtool_setting iface
        (chain_universal iface
          { c1 with
              ipv4 := some { conf := iface.base_iface.ipv4,
                             routes := iface.base_iface.routes,
                             rules := iface.base_iface.rules },
              ipv6 := some { conf := iface.base_iface.ipv6,
                             routes := iface.base_iface.routes,
                             rules := iface.base_iface.rules } }) with
    | error e => rw [h7] at h; simp only [except_bind_error] at h; cases h
    | ok c7 =>
      rw [h7] at h
      simp only [except_bind_ok] at h
      cases hd : iface_specific_dispatch iface [] ac vpe true r c7 with
      | error e => rw [hd] at h; simp only [except_bind_error] at h; cases h
      | ok dres =>
        rw [hd] at h
        simp only [except_bind_ok] at h
        cases hr : implicit_port_companion iface ctrl_iface true r dres.2 with
        | error e => rw [hr] at h; simp only [except_bind_error] at h; cases h
        | ok ret =>
          rw [hr] at h
          simp only [except_bind_ok] at h
          injection h with h2
          refine ⟨cascade_cleanup iface.base_iface.controller ctrl_iface
            dres.1, ret, h2.symm, ?_⟩
          have e1 : (cascade_cleanup iface.base_iface.controller ctrl_iface
              dres.1).connection = dres.1.connection :=
            cascade_conn _ _ _
          have e2 : dres.1.connection = c7.connection :=
            dispatch_conn iface [] ac vpe true r c7 dres hd
          have e3 := ethtool_conn iface _ c7 h7
          have e4 := chain_universal_conn iface
            { c1 with
                ipv4 := some { conf := iface.base_iface.ipv4,
                               routes := iface.base_iface.routes,
                               rules := iface.base_iface.rules },
                ipv6 := some { conf := iface.base_iface.ipv6,
                               routes := iface.base_iface.routes,
                               rules := iface.base_iface.rules } }
          have e5 : (cascade_cleanup iface.base_iface.controller ctrl_iface
              dres.1).connection = c1.connection := by
            rw [e1, e2, e3, e4]
          have h6 := gen_fresh_uuid iface (init_nm_conn [] ac iface.base_iface)
            r rfl c1 h1
          rw [uuid_eq_of_conn_eq _ _ e5]
          exact h6

/-- Claim C1: with an empty existing-profile list (stable-identity mode)
the Compiler is deterministic — its output does not depend on the random
identifier source, so two runs over the same inputs agree — and the
unique identifier it generates is the namespaced (UUIDv5, URL namespace)
hash of the string "family://name", depending only on the interface's
family tag and name: on the normal path the primary profile's identifier
is exactly `uuid_from_name_and_type`. -/
theorem compiler_stable_identity_determinism :
    (∀ (iface : Interface) (ctrl_iface : Option Interface) (ac : List String)
      (vpe : Bool) (cur : NetworkState) (r1 r2 : String),
      iface_to_nm_connectionsF 2 iface ctrl_iface [] ac vpe cur r1 =
        iface_to_nm_connectionsF 2 iface ctrl_iface [] ac vpe cur r2) ∧
    (∀ (n : String) (t : InterfaceType),
      uuid_from_name_and_type n t =
        uuid_v5_hyphenated NAMESPACE_URL (strUtf8 (t.display ++ "://" ++ n))) ∧
    (∀ (iface : Interface) (ctrl_iface : Option Interface) (ac : List String)
      (vpe : Bool) (cur : NetworkState) (r : String),
      iface.is_up_exist_config = false →
      primary_uuid_is
        (iface_to_nm_connectionsF 2 iface ctrl_iface [] ac vpe cur r)
        (uuid_from_name_and_type iface.name iface.iface_type) = true) := by
  refine ⟨fun i c a v cu r1 r2 => compilerF_empty_det r1 r2 i c a v cu,
    fun n t => rfl, ?_⟩
  intro iface ctrl ac vpe cur r hflag
  rw [compilerF_not_up 1 _ _ _ _ _ _ _ hflag]
  cases hn : iface_norm_path iface ctrl [] ac vpe r with
  | error e => simp [primary_uuid_is, headConn]
  | ok l =>
    obtain ⟨c0, ret, hl, hu⟩ := norm_path_empty_uuid iface ctrl ac vpe r l hn
    subst hl
    simp [primary_uuid_is, headConn, hu]

/-- Witness for claim C1 at a plain ethernet interface compiled from a
clean slate with two different random sources. -/
theorem compiler_stable_identity_determinism_witness :
    (iface_to_nm_connectionsF 2
        (.Ethernet { base := { name := "eth1", iface_type := .Ethernet } })
        none [] [] false {} "A" =
      iface_to_nm_connectionsF 2
        (.Ethernet { base := { name := "eth1", iface_type := .Ethernet } })
        none [] [] false {} "B") ∧
    (uuid_from_name_and_type "eth1" .Ethernet =
      uuid_v5_hyphenated NAMESPACE_URL
        (strUtf8 (InterfaceType.display .Ethernet ++ "://" ++ "eth1"))) ∧
    ((Interface.Ethernet
        { base := { name := "eth1", iface_type := .Ethernet } }).is_up_exist_config =
      false) ∧
    primary_uuid_is
      (iface_to_nm_connectionsF 2
        (.Ethernet { base := { name := "eth1", iface_type := .Ethernet } })
        none [] [] false {} "A")
      (uuid_from_name_and_type
        (Interface.name
          (.Ethernet { base := { name := "eth1", iface_type := .Ethernet } }))
        (Interface.iface_type
          (.Ethernet
            { base := { name := "eth1", iface_type := .Ethernet } }))) =
      true :=
  ⟨compiler_stable_identity_determinism.1 _ _ _ _ _ "A" "B",
    compiler_stable_identity_determinism.2.1 "eth1" .Ethernet, rfl,
    compiler_stable_identity_determinism.2.2 _ _ _ _ _ "A" rfl⟩


/-- Recognized families map to an on-wire type string. -/
theorem recognized_ok (t : InterfaceType) (h : t.is_recognized = true) :
    ∃ s, iface_type_to_nm t = .ok s := by
  cases t <;> simp_all [InterfaceType.is_recognized, iface_type_to_nm]

/-- The diagnostics-tooling generator model always succeeds. -/
theorem ethtool_ok (i : Interface) (c : NmConnection) :
    ∃ c7, gen_ethtool_setting i c = .ok c7 := by
  unfold gen_ethtool_setting
  split
  · exact ⟨_, rfl⟩
  · exact ⟨_, rfl⟩

/-- An acceptable multipath-TCP configuration passes its converter. -/
theorem mptcp_ok (i : Interface) (s : NmSettingConnection)
    (h : mptcp_acceptable i.base_iface = true) :
    ∃ s4, conn_set_mptcp i s = .ok s4 := by
  unfold conn_set_mptcp apply_mptcp_conf
  unfold mptcp_acceptable at h
  split
  · split
    · simp_all
    · exact ⟨_, rfl⟩
  · exact ⟨_, rfl⟩

/-- The Identity Assigner succeeds whenever the own family is
recognized, the controller family maps, and the multipath-TCP
configuration is acceptable; the result binds the interface name. -/
theorem gen_ok_fields (iface : Interface) (c0 : NmConnection) (st : Bool)
    (r : String) (hrec : iface.iface_type.is_recognized = true)
    (hmp : mptcp_acceptable iface.base_iface = true) (nct : Option String)
    (hmc : map_ctrl_type iface = .ok nct) :
    ∃ c1, gen_nm_conn_setting iface c0 st r = .ok c1 ∧
      NmConnection.iface_name c1 = some iface.name := by
  cases hi : conn_set_init iface c0 st r with
  | error e =>
    exfalso
    unfold conn_set_init at hi
    cases hcc : c0.connection with
    | some cs => rw [hcc] at hi; cases hi
    | none =>
      rw [hcc] at hi
      obtain ⟨nt, hnt⟩ := recognized_ok _ hrec
      rw [hnt] at hi
      simp only [except_bind_ok] at hi
      cases hi
  | ok s0 =>
    obtain ⟨s4, hm⟩ := mptcp_ok iface
      (conn_set_lldp iface (conn_set_controller iface nct
        (conn_set_basic iface s0))) hmp
    refine ⟨{ c0 with connection := some s4 }, ?_, ?_⟩
    · unfold gen_nm_conn_setting
      rw [hi]
      simp only [except_bind_ok]
      rw [hmc]
      simp only [except_bind_ok]
      rw [hm]
      rfl
    · simp [NmConnection.iface_name, (conn_set_mptcp_preserves _ _ _ hm).2.2.1,
        (conn_chain_fields iface nct s0).2.2.1]

/-- The family dispatch of an interface without companion-producing
configuration succeeds and synthesizes no Companion profiles. -/
theorem dispatch_no_comp (iface : Interface) (exist : List NmConnection)
    (ac : List String) (vpe st : Bool) (r : String) (c : NmConnection)
    (h6 : no_dispatch_companions iface vpe = true) :
    ∃ c8, iface_specific_dispatch iface exist ac vpe st r c = .ok (c8, []) := by
  cases iface with
  | OvsBridge b =>
    unfold no_dispatch_companions at h6
    have hpc : b.port_confs = [] := List.isEmpty_iff.1 h6
    refine ⟨gen_nm_ovs_br_setting b c, ?_⟩
    simp [iface_specific_dispatch, hpc, ovs_ports_build, except_bind_ok]
  | Ethernet e =>
    unfold no_dispatch_companions at h6
    cases hv : e.veth with
    | none =>
      refine ⟨gen_nm_sriov_setting e c, ?_⟩
      simp [iface_specific_dispatch, hv, except_bind_ok]
    | some v =>
      simp only [hv, Option.isNone_some, Bool.false_or] at h6
      refine ⟨gen_nm_sriov_setting e
        { c with veth := some (NmSettingVeth.ofConf v) }, ?_⟩
      simp [iface_specific_dispatch, hv, h6, except_bind_ok]
  | LinuxBridge b => exact ⟨_, rfl⟩
  | Bond b => exact ⟨_, rfl⟩
  | OvsInterface i => exact ⟨_, rfl⟩
  | Vlan i => exact ⟨_, rfl⟩
  | Vxlan i => exact ⟨_, rfl⟩
  | MacVlan i => exact ⟨_, rfl⟩
  | MacVtap i => exact ⟨_, rfl⟩
  | Vrf i => exact ⟨_, rfl⟩
  | InfiniBand i => exact ⟨_, rfl⟩
  | Dummy b => exact ⟨_, rfl⟩
  | Unknown b => exact ⟨_, rfl⟩

/-- Fields of a freshly synthesized switch-port Companion profile: bound
to the port name, generic switch-port family, attached to the bridge. -/
theorem create_ovs_port_fresh_fields (bn : String) (pc : OvsBridgePortConfig)
    (st : Bool) (r : String) :
    ∃ q, create_ovs_port_nm_conn bn pc none st r = .ok q ∧
      NmConnection.iface_name q = some pc.name ∧
      NmConnection.iface_type q = some NM_SETTING_OVS_PORT_SETTING_NAME ∧
      q.connection.bind (fun s => s.controller) = some bn ∧
      q.connection.bind (fun s => s.controller_type) =
        some NM_SETTING_OVS_BRIDGE_SETTING_NAME := by
  refine ⟨_, rfl, ?_, ?_, ?_, ?_⟩ <;>
    simp [create_ovs_port_nm_conn, NmConnection.iface_name,
      NmConnection.iface_type]


/-- Claim C3: an interface on the normal compilation path that declares
controller family switch-bridge with a non-empty controller name, with no
controller interface object supplied and no other companion-producing
configuration (and compilable: own family recognized, multipath-TCP
acceptable), compiles to exactly two profiles: the primary (bound to the
interface's name) at index 0 and one synthesized switch-port profile
bound to that controller at index 1; and in general a successful Compiler
result always has the primary profile at index 0 (the list is never
empty), at any fuel. -/
theorem compiler_implicit_port_two_profiles :
    (∀ (iface : Interface) (exist : List NmConnection) (ac : List String)
      (vpe : Bool) (cur : NetworkState) (rand : String) (cn : String),
      iface.is_up_exist_config = false →
      iface.base_iface.controller_type = some .OvsBridge →
      iface.base_iface.controller = some cn →
      cn ≠ "" →
      no_dispatch_companions iface vpe = true →
      iface.iface_type.is_recognized = true →
      mptcp_acceptable iface.base_iface = true →
      two_profiles_shape
        (iface_to_nm_connectionsF 2 iface none exist ac vpe cur rand)
        iface.name cn = true) ∧
    (∀ (fuel : Nat) (iface : Interface) (ctrl_iface : Option Interface)
      (exist : List NmConnection) (ac : List String) (vpe : Bool)
      (cur : NetworkState) (rand : String),
      primary_at_index0 (iface_to_nm_connectionsF fuel iface ctrl_iface exist
        ac vpe cur rand) = true) := by
  constructor
  · intro iface exist ac vpe cur rand cn h1 h2 h3 _h4 h6 h7 h8
    have hmc : map_ctrl_type iface = .ok (some "ovs-bridge") := by
      simp [map_ctrl_type, h2, iface_type_to_nm, except_bind_ok,
        NM_SETTING_OVS_BRIDGE_SETTING_NAME]
    rw [compilerF_not_up 1 _ _ _ _ _ _ _ h1]
    obtain ⟨c1, hgen, hname⟩ := gen_ok_fields iface
      (init_nm_conn exist ac iface.base_iface) exist.isEmpty rand h7 h8 _ hmc
    obtain ⟨c7, hety⟩ := ethtool_ok iface
      (chain_universal iface
        { c1 with
            ipv4 := some { conf := iface.base_iface.ipv4,
                           routes := iface.base_iface.routes,
                           rules := iface.base_iface.rules },
            ipv6 := some { conf := iface.base_iface.ipv6,
                           routes := iface.base_iface.routes,
                           rules := iface.base_iface.rules } })
    obtain ⟨c8, hdis⟩ := dispatch_no_comp iface exist ac vpe exist.isEmpty
      rand c7 h6
    obtain ⟨q, hcr, hq1, hq2, hq3, hq4⟩ := create_ovs_port_fresh_fields cn
      { name := iface.name } exist.isEmpty rand
    have hcomp : implicit_port_companion iface none exist.isEmpty rand [] =
        .ok [q] := by
      unfold implicit_port_companion
      rw [if_pos ⟨h2, rfl⟩, h3]
      simp [hcr, except_bind_ok]
    have hnorm : iface_norm_path iface none exist ac vpe rand =
        .ok [cascade_cleanup iface.base_iface.controller none c8, q] := by
      unfold iface_norm_path
      rw [hgen]
      simp only [except_bind_ok, gen_nm_ip_setting]
      rw [hety]
      simp only [except_bind_ok]
      rw [hdis]
      simp only [except_bind_ok]
      simp only [hcomp, except_bind_ok]
    rw [hnorm]
    have e2 : c8.connection = c7.connection :=
      dispatch_conn _ _ _ _ _ _ _ _ hdis
    have e34 : c7.connection = c1.connection := by
      rw [ethtool_conn iface _ c7 hety, chain_universal_conn]
    have hpconn : (cascade_cleanup iface.base_iface.controller none
        c8).connection = c1.connection := by
      rw [cascade_conn, e2, e34]
    have hpname : NmConnection.iface_name
        (cascade_cleanup iface.base_iface.controller none c8) =
        some iface.name := by
      simp only [NmConnection.iface_name, hpconn]
      simpa [NmConnection.iface_name] using hname
    simp [two_profiles_shape, hpname, hq1, hq2, hq3, hq4]
  · intro fuel
    induction fuel with
    | zero =>
      intro iface ctrl_iface exist ac vpe cur rand
      rfl
    | succ n ih =>
      intro iface ctrl_iface exist ac vpe cur rand
      by_cases hu : iface.is_up_exist_config = true
      · simp only [iface_to_nm_connectionsF, hu, if_true]
        cases hex : get_exist_profile exist iface.base_iface.name
            iface.base_iface.iface_type ac with
        | some nm_conn =>
          by_cases hflag : (!iface.is_userspace &&
              nm_conn.flags.contains NmSettingsConnectionFlag.External) = true
          · simp only [hflag, if_true]
            cases hlk : cur.get_kernel_iface_with_route iface.name with
            | some cur_iface => exact ih _ _ _ _ _ _ _
            | none => rfl
          · simp only [hflag, if_false]
            rfl
        | none =>
          by_cases hus : iface.is_userspace = true
          · simp only [hus, Bool.not_true, Bool.false_eq_true, if_false]
            cases hn : iface_norm_path iface ctrl_iface exist ac vpe rand with
            | error e => rfl
            | ok l =>
              obtain ⟨c0, ret, hl⟩ := norm_path_head _ _ _ _ _ _ _ hn
              subst hl
              rfl
          · simp only [Bool.not_eq_true] at hus
            simp only [hus, Bool.not_false, if_true]
            cases hlk : cur.get_kernel_iface_with_route iface.name with
            | some cur_iface =>
              by_cases hig : cur_iface.is_ignore = true
              · simp only [hig, if_true]
                exact ih _ _ _ _ _ _ _
              · simp only [hig, Bool.false_eq_true, if_false]
                cases hn : iface_norm_path iface ctrl_iface exist ac vpe
                    rand with
                | error e => rfl
                | ok l =>
                  obtain ⟨c0, ret, hl⟩ := norm_path_head _ _ _ _ _ _ _ hn
                  subst hl
                  rfl
            | none =>
              cases hn : iface_norm_path iface ctrl_iface exist ac vpe rand with
              | error e => rfl
              | ok l =>
                obtain ⟨c0, ret, hl⟩ := norm_path_head _ _ _ _ _ _ _ hn
                subst hl
                rfl
      · simp only [Bool.not_eq_true] at hu
        rw [compilerF_not_up n _ _ _ _ _ _ _ hu]
        cases hn : iface_norm_path iface ctrl_iface exist ac vpe rand with
        | error e => rfl
        | ok l =>
          obtain ⟨c0, ret, hl⟩ := norm_path_head _ _ _ _ _ _ _ hn
          subst hl
          rfl


/-- Witness for claim C3: an ethernet interface attached by name to a
switch bridge not present in the batch. -/
theorem compiler_implicit_port_two_profiles_witness :
    (Interface.Ethernet
        { base := { name := "eth2", iface_type := .Ethernet,
                    controller := some "br0",
                    controller_type := some .OvsBridge } }).is_up_exist_config =
      false ∧
    (Interface.Ethernet
        { base := { name := "eth2", iface_type := .Ethernet,
                    controller := some "br0",
                    controller_type := some .OvsBridge } }).base_iface.controller_type =
      some .OvsBridge ∧
    (Interface.Ethernet
        { base := { name := "eth2", iface_type := .Ethernet,
                    controller := some "br0",
                    controller_type := some .OvsBridge } }).base_iface.controller =
      some "br0" ∧
    "br0" ≠ "" ∧
    no_dispatch_companions
      (.Ethernet
        { base := { name := "eth2", iface_type := .Ethernet,
                    controller := some "br0",
                    controller_type := some .OvsBridge } }) false = true ∧
    (Interface.Ethernet
        { base := { name := "eth2", iface_type := .Ethernet,
                    controller := some "br0",
                    controller_type := some .OvsBridge } }).iface_type.is_recognized =
      true ∧
    mptcp_acceptable
      (Interface.Ethernet
        { base := { name := "eth2", iface_type := .Ethernet,
                    controller := some "br0",
                    controller_type := some .OvsBridge } }).base_iface = true ∧
    two_profiles_shape
      (iface_to_nm_connectionsF 2
        (.Ethernet
          { base := { name := "eth2", iface_type := .Ethernet,
                      controller := some "br0",
                      controller_type := some .OvsBridge } })
        none [] [] false {} "R")
      (Interface.name
        (.Ethernet
          { base := { name := "eth2", iface_type := .Ethernet,
                      controller := some "br0",
                      controller_type := some .OvsBridge } })) "br0" = true ∧
    primary_at_index0
      (iface_to_nm_connectionsF 2
        (.Ethernet
          { base := { name := "eth2", iface_type := .Ethernet,
                      controller := some "br0",
                      controller_type := some .OvsBridge } })
        none [] [] false {} "R") = true :=
  ⟨rfl, rfl, rfl, by decide, rfl, rfl, rfl,
    compiler_implicit_port_two_profiles.1 _ _ _ _ _ _ _ rfl rfl rfl
      (by decide) rfl rfl rfl,
    compiler_implicit_port_two_profiles.2 2 _ _ _ _ _ _ _⟩

end Nmstate
